import Mathlib

/-!
Verification development for the sboot-cli code generator.

The JavaScript sources are shallowly embedded: strings are Lean `String`s,
filesystem paths are lists of path segments, and the filesystem itself is an
explicit state value threaded through every operation.  Asynchronous
JavaScript functions become pure Lean functions returning `Except` where the
original can throw.  The Handlebars templating collaborator is passed as an
opaque-to-the-theorem function parameter, and every call to it is recorded so
that theorems can speak about the template name and data record used.
-/

/-! ## JavaScript string primitive embeddings -/

/-- Embedding of the JavaScript substring test used by `String.prototype.includes`:
`pat` occurs contiguously inside `s`. -/
def charsInfix (pat : List Char) : List Char → Bool
  | [] => pat.isEmpty
  | c :: rest => pat.isPrefixOf (c :: rest) || charsInfix pat rest

/-- JavaScript `s.includes(pat)`. -/
def jsIncludes (s pat : String) : Bool := charsInfix pat.data s.data

/-- JavaScript `s.endsWith(suffix)`. -/
def jsEndsWith (s suffix : String) : Bool := suffix.data.isSuffixOf s.data

/-- Character-list core of `String.prototype.replace(pat, '')` with a string
pattern: remove the first occurrence of `pat`, leave the string unchanged when
`pat` does not occur. -/
def replaceFirstChars (pat : List Char) : List Char → List Char
  | [] => []
  | c :: rest =>
      if pat.isPrefixOf (c :: rest) then (c :: rest).drop pat.length
      else c :: replaceFirstChars pat rest

/-- JavaScript `s.replace(pat, '')` (string pattern, so only the first
occurrence is removed). -/
def jsReplaceFirst (s pat : String) : String := String.mk (replaceFirstChars pat.data s.data)

/-- Character-list core of `String.prototype.split(sep)`; always returns at
least one (possibly empty) piece, like JavaScript. -/
def splitCharsOn (sep : Char) : List Char → List (List Char)
  | [] => [[]]
  | c :: rest =>
      let r := splitCharsOn sep rest
      if c = sep then [] :: r else (c :: r.headD []) :: r.drop 1

/-- JavaScript `s.split(sep)` for a single-character separator. -/
def jsSplit (s : String) (sep : Char) : List String := (splitCharsOn sep s.data).map String.mk

/-- JavaScript `s.toUpperCase()` (ASCII fragment, which is all the sources use). -/
def jsToUpper (s : String) : String := String.mk (s.data.map Char.toUpper)

/-- JavaScript `s.toLowerCase()` (ASCII fragment). -/
def jsToLower (s : String) : String := String.mk (s.data.map Char.toLower)

/-- JavaScript `word.charAt(0).toUpperCase() + word.slice(1)` as used by the
generators to capitalize a word. -/
def capitalizeWord (s : String) : String :=
  match s.data with
  | [] => ""
  | c :: rest => String.mk (c.toUpper :: rest)

/-- The Pascal-case conversion used by `ResourceGenerator.generateEntity`:
`name.split(' ').map(capitalize).join('')`. -/
def pascalCase (name : String) : String :=
  ((jsSplit name ' ').map capitalizeWord).foldl (· ++ ·) ""

/-- JavaScript `input.trim() !== ''` (the emptiness check of the prompt
validators). -/
def jsTrimNonempty (s : String) : Bool := s.data.any (fun c => !c.isWhitespace)

/-- The artifact-name pattern of create.js, regex `^[A-Z][a-zA-Z0-9 ]*$`. -/
def resourceNamePattern (s : String) : Bool :=
  match s.data with
  | [] => false
  | c :: rest =>
      (('A' ≤ c) && (c ≤ 'Z')) &&
      rest.all (fun d =>
        (('a' ≤ d) && (d ≤ 'z')) || (('A' ≤ d) && (d ≤ 'Z')) ||
        (('0' ≤ d) && (d ≤ '9')) || (d = ' '))

/-- The module-name pattern of create.js, regex `^[a-z][a-z0-9]*$`. -/
def moduleNamePattern (s : String) : Bool :=
  match s.data with
  | [] => false
  | c :: rest =>
      (('a' ≤ c) && (c ≤ 'z')) &&
      rest.all (fun d => (('a' ≤ d) && (d ≤ 'z')) || (('0' ≤ d) && (d ≤ '9')))

/-! ## Paths and the filesystem state -/

/-- A filesystem path, already split into segments (the embedding of the
strings produced by Node's `path.join`). -/
abbrev FsPath := List String

/-- Rendering of a path for error messages (Node would use the platform
separator; the embedding fixes it to `/`). -/
def pathToString (p : FsPath) : String := String.intercalate "/" p

/-- Node `path.dirname`. -/
def pathDirname (p : FsPath) : FsPath := p.dropLast

/-- Node `path.basename(p, '.java')`: the last segment with the extension
stripped when it is a proper suffix. -/
def basenameNoJava (p : FsPath) : String :=
  let s := p.getLastD ""
  if jsEndsWith s ".java" && s ≠ ".java" then String.mk (s.data.take (s.data.length - 5)) else s

/-! ## Association-list helpers (JavaScript `Map` and the file table) -/

/-- First value stored under a key. -/
def alistFind {κ α : Type} [DecidableEq κ] : List (κ × α) → κ → Option α
  | [], _ => none
  | (k, v) :: rest, key => if k = key then some v else alistFind rest key

/-- JavaScript `Map.set` on an existing key / file overwrite: replace in place,
preserving insertion order. -/
def alistReplace {κ α : Type} [DecidableEq κ] : List (κ × α) → κ → α → List (κ × α)
  | [], key, v => [(key, v)]
  | (k, w) :: rest, key, v =>
      if k = key then (k, v) :: rest else (k, w) :: alistReplace rest key v

/-- Update the value stored under `key` in place, when present. -/
def alistModify {κ α : Type} [DecidableEq κ] (f : α → α) : List (κ × α) → κ → List (κ × α)
  | [], _ => []
  | (k, w) :: rest, key =>
      if k = key then (k, f w) :: rest else (k, w) :: alistModify f rest key

/-- The filesystem: a file table (path to content), the set of existing
directories, a list of paths whose reads fail with an I/O error (modelling
transient filesystem faults), and two ghost traces recording every
`ensureDir` and every `writeFile` in call order. -/
structure FS where
  files : List (FsPath × String) := []
  dirs : List FsPath := []
  ioFaults : List FsPath := []
  dirTrace : List FsPath := []
  fileTrace : List FsPath := []
  deriving Repr, DecidableEq

/-- Whether a regular file exists at `p`. -/
def FS.fileExists (fs : FS) (p : FsPath) : Bool := (alistFind fs.files p).isSome

/-- fs-extra `pathExists`: true for a file or a directory (never throws). -/
def FS.pathExists (fs : FS) (p : FsPath) : Bool := fs.fileExists p || fs.dirs.contains p

/-- The message of the error Node throws when reading a missing file. -/
def enoentMsg (p : FsPath) : String :=
  "ENOENT: no such file or directory, open " ++ pathToString p

/-- The message of the error the embedding uses for a faulted read. -/
def eioMsg (p : FsPath) : String := "EIO: input output error, " ++ pathToString p

/-- `fs.readFile(p, 'utf-8')`: rejects on a faulted path or a missing file. -/
def FS.readFileE (fs : FS) (p : FsPath) : Except String String :=
  if fs.ioFaults.contains p then .error (eioMsg p)
  else
    match alistFind fs.files p with
    | some c => .ok c
    | none => .error (enoentMsg p)

/-- `fs.writeFile(p, content)`: create or overwrite, recording the write in
the ghost trace. -/
def FS.writeFile (fs : FS) (p : FsPath) (content : String) : FS :=
  { fs with files := alistReplace fs.files p content, fileTrace := fs.fileTrace ++ [p] }

/-- Create one directory if it is not already present. -/
def FS.mkdirOne (fs : FS) (q : FsPath) : FS :=
  if fs.dirs.contains q then fs else { fs with dirs := fs.dirs ++ [q] }

/-- The nonempty prefixes of a path, shortest first: the chain of directories
`mkdir -p` walks. -/
def pathPrefixes (p : FsPath) : List FsPath :=
  (List.range p.length).map (fun i => p.take (i + 1))

/-- fs-extra `ensureDir` (`mkdir -p`): create the directory and every missing
ancestor; existing directories are not an error.  The requested path is
recorded in the ghost trace. -/
def FS.ensureDir (fs : FS) (p : FsPath) : FS :=
  let fs' := (pathPrefixes p).foldl FS.mkdirOne fs
  { fs' with dirTrace := fs'.dirTrace ++ [p] }

/-- `fs.readdir(p, { withFileTypes: true })`: each entry is a name paired with
its is-directory flag.  Rejects on a faulted or missing directory.  The
traversal order is determinized as directories (in table order) followed by
files (in table order). -/
def FS.readdirE (fs : FS) (p : FsPath) : Except String (List (String × Bool)) :=
  if fs.ioFaults.contains p then .error (eioMsg p)
  else if fs.dirs.contains p then
    .ok ((fs.dirs.filterMap (fun q =>
            if q.dropLast = p ∧ q ≠ [] then some (q.getLastD "", true) else none))
      ++ (fs.files.filterMap (fun e =>
            if e.1.dropLast = p ∧ e.1 ≠ [] then some (e.1.getLastD "", false) else none)))
  else .error ("ENOENT: no such file or directory, scandir " ++ pathToString p)

/-- A fuel bound large enough to cover every recorded path. -/
def FS.maxPathLen (fs : FS) : Nat :=
  ((fs.dirs ++ fs.files.map (·.1)).map List.length).foldl max 0

/-- Fueled recursive file listing, the core of `ResourceScanner.getAllFiles`. -/
def FS.getAllFilesF (fs : FS) : Nat → FsPath → Except String (List FsPath)
  | 0, p => .error ("EMFILE: depth limit, " ++ pathToString p)
  | fuel + 1, p => do
      let items ← fs.readdirE p
      items.foldlM
        (fun acc item =>
          let full := p ++ [item.1]
          if item.2 then do
            let sub ← fs.getAllFilesF fuel full
            pure (acc ++ sub)
          else pure (acc ++ [full]))
        []

/-- `ResourceScanner.getAllFiles`: every file (any depth) under `p`. -/
def FS.getAllFilesE (fs : FS) (p : FsPath) : Except String (List FsPath) :=
  fs.getAllFilesF (fs.maxPathLen + 1) p

/-! ## ResourceScanner (src/src/core/scanner/ResourceScanner.js) -/

/-- `ResourceScanner.determineMapperType`: `null` unless the mapper marker
annotation is present; the framework sub-kind when the spring component-model
argument appears. -/
def determineMapperType (content : String) : Option String :=
  if !jsIncludes content "@Mapper" then none
  else if jsIncludes content "@Mapper(componentModel = \"spring\")" then some "mapstruct-spring"
  else some "mapstruct"

/-- `ResourceScanner.determineResourceType`: the priority-ordered content and
name based classification. -/
def determineResourceType (content fileName : String) : String :=
  if jsIncludes content "public enum" then "enum"
  else if jsIncludes content "@Entity" || jsIncludes content "@Table" then "entity"
  else if jsIncludes content "@Service" then "service"
  else if jsIncludes content "@Controller" || jsIncludes content "@RestController" then "controller"
  else if jsIncludes content "@Repository" then "repository"
  else if jsEndsWith fileName "DTO" || jsEndsWith fileName "Dto" then "dto"
  else if (determineMapperType content).isSome then "mapper"
  else if jsIncludes content "interface" then
    if jsIncludes content "Repository" then "repository"
    else if jsIncludes content "Service" then "service"
    else if jsIncludes fileName "Mapper" then "mapper"
    else "unknown"
  else "unknown"

/-- The record `ResourceScanner.analyzeJavaFile` resolves to for one file.
The `path.relative(process.cwd(), ...)` relativization is modelled as the
identity (the working directory is not part of the state). -/
structure JavaFileInfo where
  name : String
  type : String
  path : FsPath
  isImplementation : Bool
  interfaceName : Option String
  isInterface : Bool
  mapperType : Option String
  deriving Repr, DecidableEq

/-- `ResourceScanner.analyzeJavaFile`: classify one file; the `catch` turns a
failed read into `null`. -/
def analyzeJavaFile (fs : FS) (filePath : FsPath) : Option JavaFileInfo :=
  match fs.readFileE filePath with
  | .error _ => none
  | .ok content =>
      let fileName := basenameNoJava filePath
      let isImplementation := jsEndsWith fileName "Impl"
      let interfaceName := if isImplementation then some (jsReplaceFirst fileName "Impl") else none
      some
        { name := fileName
          type := determineResourceType content fileName
          path := filePath
          isImplementation := isImplementation
          interfaceName := interfaceName
          isInterface := jsIncludes content "interface "
          mapperType := determineMapperType content }

/-- One merged entry of the scanner's resource map. -/
structure ResourceRecord where
  name : String
  type : String
  path : FsPath
  implementation : Option String
  mapperType : Option String
  deriving Repr, DecidableEq

/-- The key of the resource map: `resource.interfaceName || resource.name`
(JavaScript truthiness, so an empty interface name falls back to the file
name). -/
def resourceKey (r : JavaFileInfo) : String :=
  match r.interfaceName with
  | some s => if s = "" then r.name else s
  | none => r.name

/-- One step of the `validResources.forEach` fold over the insertion-ordered
resource map: a new key is appended; an existing key only gains an
`implementation` reference (and only from an implementation file). -/
def scanStep (m : List (String × ResourceRecord)) (r : JavaFileInfo) :
    List (String × ResourceRecord) :=
  let key := resourceKey r
  match alistFind m key with
  | none =>
      m ++ [(key,
        { name := key
          type := r.type
          path := r.path
          implementation := if r.isImplementation then some r.name else none
          mapperType := r.mapperType })]
  | some _ =>
      if r.isImplementation then
        alistModify (fun rec => { rec with implementation := some r.name }) m key
      else m

/-- The map-building and value-extraction core of `ResourceScanner.scan`,
applied to the analyzed files in traversal order. -/
def scanMerge (infos : List JavaFileInfo) : List ResourceRecord :=
  (infos.foldl scanStep []).map (·.2)

/-- `ResourceScanner.scan`: list every file under the directory, keep the
`.java` ones, analyze them, drop failed analyses, and merge; the outer
`catch` turns any thrown filesystem error into an empty list. -/
def ResourceScanner.scan (fs : FS) (directoryPath : FsPath) : List ResourceRecord :=
  match fs.getAllFilesE directoryPath with
  | .error _ => []
  | .ok files =>
      let javaFiles := files.filter (fun f => jsEndsWith (pathToString f) ".java")
      scanMerge ((javaFiles.map (analyzeJavaFile fs)).filterMap id)

/-! ## ModuleScanner and ProjectScanner (scanner sources) -/

/-- The layer record built by `ModuleScanner.scanLayer` (before resources are
attached). -/
structure LayerStructure where
  path : FsPath
  directories : List String
  deriving Repr, DecidableEq

/-- `ModuleScanner.scanLayer`: `null` when the layer directory is missing, and
also `null` (via the `catch`) when reading it throws. -/
def ModuleScanner.scanLayer (fs : FS) (layerPath : FsPath) : Option LayerStructure :=
  if !fs.pathExists layerPath then none
  else
    match fs.readdirE layerPath with
    | .error _ => none
    | .ok items =>
        some { path := layerPath
               directories := items.filterMap (fun it => if it.2 then some it.1 else none) }

/-- `ProjectScanner.isValidModule`: the directory has at least one child whose
lowercased name is one of the three fixed layer names; a failed read is caught
and reported as `false`. -/
def ProjectScanner.isValidModule (fs : FS) (modulePath : FsPath) : Bool :=
  match fs.readdirE modulePath with
  | .error _ => false
  | .ok contents =>
      contents.any (fun item =>
        ["application", "domain", "infrastructure"].contains (jsToLower item.1))

/-- `ProjectScanner.findModules`: the module subdirectories of the base
package directory, in traversal order; a failed read of the base directory is
caught and reported as an empty list. -/
def ProjectScanner.findModules (fs : FS) (basePath : FsPath) : List FsPath :=
  match fs.readdirE basePath with
  | .error _ => []
  | .ok entries =>
      entries.foldl
        (fun acc entry =>
          if entry.2 && ProjectScanner.isValidModule fs (basePath ++ [entry.1]) then
            acc ++ [basePath ++ [entry.1]]
          else acc)
        []

/-! ## Generation data model -/

/-- A JavaScript value appearing in a template data record. -/
inductive JSVal where
  | s (v : String)
  | b (v : Bool)
  deriving Repr, DecidableEq

/-- A flat template data record, field order as written in the source. -/
abbrev TemplateData := List (String × JSVal)

/-- The templating collaborator: template name and data record to generated
text (Handlebars is outside the modelled core). -/
abbrev TemplateFn := String → TemplateData → String

/-- The slice of the discovered project structure the generators read. -/
structure ProjectStructure where
  sourcePath : FsPath
  basePackage : String
  deriving Repr, DecidableEq

/-- `sourcePath` joined with `basePackage.split('.')` and the module name, the
module base path every generator computes. -/
def moduleBasePath (ps : ProjectStructure) (moduleName : String) : FsPath :=
  ps.sourcePath ++ jsSplit ps.basePackage '.' ++ [moduleName]

/-- The conventional entity file path `module/domain/entities/<Name>.java`. -/
def entityFilePath (ps : ProjectStructure) (moduleName entityName : String) : FsPath :=
  moduleBasePath ps moduleName ++ ["domain", "entities", entityName ++ ".java"]

/-- The conventional repository file path
`module/infrastructure/repositories/<Name>Repository.java`. -/
def repositoryFilePath (ps : ProjectStructure) (moduleName entityName : String) : FsPath :=
  moduleBasePath ps moduleName ++ ["infrastructure", "repositories",
    entityName ++ "Repository.java"]

/-- The conventional service interface file path
`module/application/services/<Name>Service.java`. -/
def serviceFilePath (ps : ProjectStructure) (moduleName baseName : String) : FsPath :=
  moduleBasePath ps moduleName ++ ["application", "services", baseName ++ "Service.java"]

/-- The conventional service implementation file path
`module/application/services/implementations/<Name>ServiceImpl.java`. -/
def serviceImplFilePath (ps : ProjectStructure) (moduleName baseName : String) : FsPath :=
  moduleBasePath ps moduleName ++ ["application", "services", "implementations",
    baseName ++ "ServiceImpl.java"]

/-- The conventional controller file path
`module/infrastructure/controllers/<Name>Controller.java`. -/
def controllerFilePath (ps : ProjectStructure) (moduleName baseName : String) : FsPath :=
  moduleBasePath ps moduleName ++ ["infrastructure", "controllers",
    baseName ++ "Controller.java"]

/-- Per-layer scaffolding configuration (`config.moduleStructure.layers`
entries). -/
structure LayerCfg where
  enabled : Bool
  folders : List String
  deriving Repr, DecidableEq

/-- The configuration fields the embedded core reads, each optional exactly
where the source uses a fallback chain. -/
structure Config where
  moduleLayers : List (String × LayerCfg) := []
  entityDefaultIdType : Option String := none
  serviceUseTransactional : Option Bool := none
  deriving Repr, DecidableEq

/-- Options of a generation request (`options.idType`). -/
structure GenOptions where
  idType : Option String := none
  deriving Repr, DecidableEq

/-- JavaScript `a || d` for an optional string, where an empty string is
falsy. -/
def jsOrDefault (a : Option String) (d : String) : String :=
  match a with
  | some s => if s = "" then d else s
  | none => d

/-- What one generator invocation produced: the `createdFiles` result and the
recorded templating calls. -/
structure GenOut where
  createdFiles : List FsPath
  calls : List (String × TemplateData)
  deriving Repr, DecidableEq

/-- A generator step: the filesystem after the call, and either a thrown error
message or the produced `GenOut`. -/
abbrev GenRet := FS × Except String GenOut

/-! ## ResourceGenerator (src/unnamed/part_000, second version) -/

/-- `ResourceGenerator.generateEntity`: no prerequisite; id type from the
request option, else the configuration default, else UUID; writes one file
under `domain/entities`. -/
def ResourceGenerator.generateEntity (ps : ProjectStructure) (tmpl : TemplateFn) (cfg : Config)
    (fs : FS) (name moduleName : String) (options : GenOptions) : GenRet :=
  let idType := jsOrDefault (options.idType.map jsToUpper)
    (jsOrDefault cfg.entityDefaultIdType "UUID")
  let pascalName := pascalCase name
  let entityPath := entityFilePath ps moduleName pascalName
  let templateData : TemplateData :=
    [("basePackage", .s ps.basePackage), ("module", .s moduleName), ("name", .s name),
     ("idType", .s (if idType = "UUID" then "UUID" else "Long")),
     ("idGenerationType", .s (if idType = "UUID" then "UUID" else "IDENTITY")),
     ("isUUID", .b (idType = "UUID"))]
  let content := tmpl "entity" templateData
  let fs1 := (fs.ensureDir (pathDirname entityPath)).writeFile entityPath content
  (fs1, .ok { createdFiles := [entityPath], calls := [("entity", templateData)] })

/-- `ResourceGenerator.generateRepository`: requires the entity file, infers
the id type from its text, writes one file under
`infrastructure/repositories`. -/
def ResourceGenerator.generateRepository (ps : ProjectStructure) (tmpl : TemplateFn)
    (fs : FS) (name moduleName : String) : GenRet :=
  let entityName := jsReplaceFirst name "Repository"
  let entityPath := entityFilePath ps moduleName entityName
  if !fs.pathExists entityPath then
    (fs, .error ("Entity " ++ entityName ++ " not found in module " ++ moduleName ++
      ". Create the entity first."))
  else
    match fs.readFileE entityPath with
    | .error e => (fs, .error e)
    | .ok entityContent =>
        let isUUID := jsIncludes entityContent "UUID"
        let idType := if isUUID then "UUID" else "Long"
        let repositoryPath := repositoryFilePath ps moduleName entityName
        let templateData : TemplateData :=
          [("basePackage", .s ps.basePackage), ("module", .s moduleName),
           ("entityName", .s entityName), ("idType", .s idType), ("isUUID", .b isUUID)]
        let content := tmpl "repository" templateData
        let fs1 := (fs.ensureDir (pathDirname repositoryPath)).writeFile repositoryPath content
        (fs1, .ok { createdFiles := [repositoryPath], calls := [("repository", templateData)] })

/-- `ResourceGenerator.generateEntityBasedService`: requires the entity and
its repository, infers the id type from the entity text, writes the interface
and the implementation from two templates sharing one data record. -/
def ResourceGenerator.generateEntityBasedService (ps : ProjectStructure) (tmpl : TemplateFn)
    (cfg : Config) (fs : FS) (name moduleName : String) : GenRet :=
  let entityName := jsReplaceFirst name "Service"
  let entityPath := entityFilePath ps moduleName entityName
  let repositoryPath := repositoryFilePath ps moduleName entityName
  if !fs.pathExists entityPath then
    (fs, .error ("Entity " ++ entityName ++ " not found in module " ++ moduleName ++
      ". Create the entity first."))
  else if !fs.pathExists repositoryPath then
    (fs, .error ("Repository for " ++ entityName ++ " not found in module " ++ moduleName ++
      ". Create the repository first."))
  else
    match fs.readFileE entityPath with
    | .error e => (fs, .error e)
    | .ok entityContent =>
        let isUUID := jsIncludes entityContent "UUID"
        let idType := if isUUID then "UUID" else "Long"
        let templateData : TemplateData :=
          [("basePackage", .s ps.basePackage), ("module", .s moduleName),
           ("entityName", .s entityName), ("idType", .s idType), ("isUUID", .b isUUID),
           ("useTransactional", .b (cfg.serviceUseTransactional.getD true))]
        let servicePath := serviceFilePath ps moduleName entityName
        let serviceContent := tmpl "service" templateData
        let serviceImplPath := serviceImplFilePath ps moduleName entityName
        let serviceImplContent := tmpl "service-impl" templateData
        let fs1 := (fs.ensureDir (pathDirname servicePath)).writeFile servicePath serviceContent
        let fs2 := (fs1.ensureDir (pathDirname serviceImplPath)).writeFile serviceImplPath
          serviceImplContent
        (fs2, .ok { createdFiles := [servicePath, serviceImplPath],
                    calls := [("service", templateData), ("service-impl", templateData)] })

/-- `ResourceGenerator.generateStandaloneService`: no prerequisite; strips the
first `Service` occurrence from the name and writes the interface and the
implementation from the two standalone templates sharing one data record. -/
def ResourceGenerator.generateStandaloneService (ps : ProjectStructure) (tmpl : TemplateFn)
    (cfg : Config) (fs : FS) (serviceName moduleName : String) : GenRet :=
  let baseServiceName := jsReplaceFirst serviceName "Service"
  let templateData : TemplateData :=
    [("basePackage", .s ps.basePackage), ("module", .s moduleName),
     ("serviceName", .s baseServiceName),
     ("useTransactional", .b (cfg.serviceUseTransactional.getD true))]
  let servicePath := serviceFilePath ps moduleName baseServiceName
  let serviceImplPath := serviceImplFilePath ps moduleName baseServiceName
  let serviceContent := tmpl "standalone-service" templateData
  let serviceImplContent := tmpl "standalone-service-impl" templateData
  let fs1 := (fs.ensureDir (pathDirname servicePath)).writeFile servicePath serviceContent
  let fs2 := (fs1.ensureDir (pathDirname serviceImplPath)).writeFile serviceImplPath
    serviceImplContent
  (fs2, .ok { createdFiles := [servicePath, serviceImplPath],
              calls := [("standalone-service", templateData),
                        ("standalone-service-impl", templateData)] })

/-- `ResourceGenerator.generateEntityBasedController`: requires the service
file, then reads the entity file without an existence guard, and writes one
controller file. -/
def ResourceGenerator.generateEntityBasedController (ps : ProjectStructure) (tmpl : TemplateFn)
    (fs : FS) (entityName moduleName : String) : GenRet :=
  let servicePath := serviceFilePath ps moduleName entityName
  if !fs.pathExists servicePath then
    (fs, .error ("Service for " ++ entityName ++ " not found in module " ++ moduleName ++
      ". Create the service first."))
  else
    let entityPath := entityFilePath ps moduleName entityName
    match fs.readFileE entityPath with
    | .error e => (fs, .error e)
    | .ok entityContent =>
        let isUUID := jsIncludes entityContent "UUID"
        let idType := if isUUID then "UUID" else "Long"
        let controllerPath := controllerFilePath ps moduleName entityName
        let templateData : TemplateData :=
          [("basePackage", .s ps.basePackage), ("module", .s moduleName),
           ("entityName", .s entityName), ("idType", .s idType), ("isUUID", .b isUUID)]
        let content := tmpl "controller" templateData
        let fs1 := (fs.ensureDir (pathDirname controllerPath)).writeFile controllerPath content
        (fs1, .ok { createdFiles := [controllerPath], calls := [("controller", templateData)] })

/-- `ResourceGenerator.generateStandaloneController`: strips the first
`Controller` occurrence and writes one controller file, no prerequisite. -/
def ResourceGenerator.generateStandaloneController (ps : ProjectStructure) (tmpl : TemplateFn)
    (fs : FS) (controllerName moduleName : String) : GenRet :=
  let baseName := jsReplaceFirst controllerName "Controller"
  let controllerPath := controllerFilePath ps moduleName baseName
  let templateData : TemplateData :=
    [("basePackage", .s ps.basePackage), ("module", .s moduleName),
     ("controllerName", .s baseName)]
  let content := tmpl "standalone-controller" templateData
  let fs1 := (fs.ensureDir (pathDirname controllerPath)).writeFile controllerPath content
  (fs1, .ok { createdFiles := [controllerPath], calls := [("standalone-controller", templateData)] })

/-- The request name: a plain string, or the structured
`{ name, isEntityBased }` value create.js builds for services and
controllers. -/
inductive ReqName where
  | plain (name : String)
  | structured (name : String) (isEntityBased : Bool)
  deriving Repr, DecidableEq

/-- `ResourceGenerator.generate`: dispatch on the request type; unknown types
throw.  A request whose name shape does not fit its type would crash the
JavaScript with a type error; the embedding models that as a thrown
`TypeError`. -/
def ResourceGenerator.generate (ps : ProjectStructure) (tmpl : TemplateFn) (cfg : Config)
    (fs : FS) (name : ReqName) (type moduleName : String) (options : GenOptions) : GenRet :=
  match type, name with
  | "entity", .plain n => ResourceGenerator.generateEntity ps tmpl cfg fs n moduleName options
  | "repository", .plain n => ResourceGenerator.generateRepository ps tmpl fs n moduleName
  | "service", .structured n isEntityBased =>
      if isEntityBased then ResourceGenerator.generateEntityBasedService ps tmpl cfg fs n moduleName
      else ResourceGenerator.generateStandaloneService ps tmpl cfg fs n moduleName
  | "controller", .structured n isEntityBased =>
      if isEntityBased then ResourceGenerator.generateEntityBasedController ps tmpl fs n moduleName
      else ResourceGenerator.generateStandaloneController ps tmpl fs n moduleName
  | "entity", .structured _ _ => (fs, .error "TypeError")
  | "repository", .structured _ _ => (fs, .error "TypeError")
  | "service", .plain _ => (fs, .error "TypeError")
  | "controller", .plain _ => (fs, .error "TypeError")
  | t, _ => (fs, .error ("Resource type " ++ t ++ " not implemented yet"))

/-! ## ModuleGenerator (src/src/core/generator/ModuleGenerator.js) -/

/-- The result record of `ModuleGenerator.generate`. -/
structure ModResult where
  moduleName : String
  basePath : FsPath
  createdPaths : List FsPath
  deriving Repr, DecidableEq

/-- The inner folder loop of `ModuleGenerator.generate`: ensure each folder
directory, and for folders named exactly `services` or `mappers` also a
nested `implementations` directory, pushing every path in creation order. -/
def ModuleGenerator.genFolders (layerPath : FsPath) :
    List String → FS → List FsPath → FS × List FsPath
  | [], fs, acc => (fs, acc)
  | folder :: rest, fs, acc =>
      let folderPath := layerPath ++ [folder]
      let fs1 := fs.ensureDir folderPath
      let acc1 := acc ++ [folderPath]
      if folder = "services" ∨ folder = "mappers" then
        ModuleGenerator.genFolders layerPath rest
          (fs1.ensureDir (folderPath ++ ["implementations"]))
          (acc1 ++ [folderPath ++ ["implementations"]])
      else ModuleGenerator.genFolders layerPath rest fs1 acc1

/-- The outer layer loop of `ModuleGenerator.generate` over
`Object.entries(config.moduleStructure.layers)`: disabled layers are
skipped entirely. -/
def ModuleGenerator.genLayers (base : FsPath) :
    List (String × LayerCfg) → FS → List FsPath → FS × List FsPath
  | [], fs, acc => (fs, acc)
  | (layerName, layerCfg) :: rest, fs, acc =>
      if layerCfg.enabled then
        let layerPath := base ++ [layerName]
        let st := ModuleGenerator.genFolders layerPath layerCfg.folders
          (fs.ensureDir layerPath) (acc ++ [layerPath])
        ModuleGenerator.genLayers base rest st.1 st.2
      else ModuleGenerator.genLayers base rest fs acc

/-- `ModuleGenerator.generate`: ensure the module base directory, then the
configured layer and folder skeleton, returning every created path in
creation order. -/
def ModuleGenerator.generate (ps : ProjectStructure) (cfg : Config) (fs : FS)
    (moduleName : String) : FS × ModResult :=
  let base := moduleBasePath ps moduleName
  let st := ModuleGenerator.genLayers base cfg.moduleLayers (fs.ensureDir base) [base]
  (st.1, { moduleName := moduleName, basePath := base, createdPaths := st.2 })

/-! ## create.js request plumbing -/

/-- The structured name `getServiceName` returns. -/
structure ServiceReq where
  name : String
  isEntityBased : Bool
  deriving Repr, DecidableEq

/-- The command-line branch of `getServiceName` in create.js: a provided name
is returned as a standalone request with no validation at all. -/
def getServiceNameProvided (providedName : String) : ServiceReq :=
  { name := providedName, isEntityBased := false }

/-- The `validate` callback of the standalone-service prompt in
`getServiceName`: nonempty after trimming, the artifact-name pattern, and the
`Service` suffix. -/
def serviceNamePromptValidate (input : String) : Bool :=
  jsTrimNonempty input && resourceNamePattern input && jsEndsWith input "Service"

/-! ## Composite (full) generation -/

/-- Modelled from the spec: the composite ("full") generation mode
(`create resource ... --full`) is documented in the README and in the spec
(sections 4.6 and 6) but its implementation is not among the provided source
files; following the spec it runs entity, repository, entity-based service,
entity-based controller in that fixed order for one logical name over the
source-embedded generators, short-circuiting on the first failure and
concatenating the created-file lists. -/
def generateFull (ps : ProjectStructure) (tmpl : TemplateFn) (cfg : Config) (fs : FS)
    (name moduleName : String) (options : GenOptions) : GenRet :=
  match ResourceGenerator.generateEntity ps tmpl cfg fs name moduleName options with
  | (fs1, .error e) => (fs1, .error e)
  | (fs1, .ok o1) =>
    match ResourceGenerator.generateRepository ps tmpl fs1 name moduleName with
    | (fs2, .error e) => (fs2, .error e)
    | (fs2, .ok o2) =>
      match ResourceGenerator.generateEntityBasedService ps tmpl cfg fs2 name moduleName with
      | (fs3, .error e) => (fs3, .error e)
      | (fs3, .ok o3) =>
        match ResourceGenerator.generateEntityBasedController ps tmpl fs3 name moduleName with
        | (fs4, .error e) => (fs4, .error e)
        | (fs4, .ok o4) =>
            (fs4, .ok { createdFiles := o1.createdFiles ++ o2.createdFiles ++
                          o3.createdFiles ++ o4.createdFiles,
                        calls := o1.calls ++ o2.calls ++ o3.calls ++ o4.calls })

/-! ## Derived descriptions of the scaffolding walk -/

/-- The directories one folder entry of the scaffold makes `ensureDir` touch,
in call order. -/
def scaffoldFolderPaths (layerPath : FsPath) (folder : String) : List FsPath :=
  let folderPath := layerPath ++ [folder]
  if folder = "services" ∨ folder = "mappers" then
    [folderPath, folderPath ++ ["implementations"]]
  else [folderPath]

/-- The directories one layer entry of the scaffold makes `ensureDir` touch,
in call order. -/
def scaffoldLayerPaths (base : FsPath) (entry : String × LayerCfg) : List FsPath :=
  if entry.2.enabled then
    (base ++ [entry.1]) :: entry.2.folders.flatMap (scaffoldFolderPaths (base ++ [entry.1]))
  else []

/-- Every directory `ModuleGenerator.generate` makes `ensureDir` touch, in
call order. -/
def scaffoldTouchList (ps : ProjectStructure) (cfg : Config) (moduleName : String) :
    List FsPath :=
  moduleBasePath ps moduleName ::
    cfg.moduleLayers.flatMap (scaffoldLayerPaths (moduleBasePath ps moduleName))

/-- Fold `ensureDir` over a list of directory paths. -/
def applyEnsure (fs : FS) (l : List FsPath) : FS := l.foldl FS.ensureDir fs

/-- Every ancestor of `p` (including `p`) already exists in `fs`. -/
def DirsClosed (fs : FS) (p : FsPath) : Prop :=
  ∀ q ∈ pathPrefixes p, fs.dirs.contains q = true

/-! ## Concrete fixtures used by witnesses and counterexamples -/

/-- A concrete project-structure fixture. -/
def psFix : ProjectStructure := { sourcePath := ["srcmain"], basePackage := "com.example" }

/-- A concrete templating function fixture (renders the template name). -/
def tmplFix : TemplateFn := fun n _ => "content of " ++ n

/-- A two-file layer, interface file listed (hence traversed) first. -/
def c2FsOf (cI cImpl : String) : FS :=
  { files := [(["app", "FooService.java"], cI), (["app", "FooServiceImpl.java"], cImpl)],
    dirs := [["app"]] }

/-- The same two-file layer, implementation file traversed first. -/
def c2FsSwapOf (cI cImpl : String) : FS :=
  { files := [(["app", "FooServiceImpl.java"], cImpl), (["app", "FooService.java"], cI)],
    dirs := [["app"]] }

/-- Concrete interface-file content for the scanner fixtures. -/
def c2InterfaceContent : String := "public interface FooService extends Object"

/-- Concrete implementation-file content for the scanner fixtures. -/
def c2ImplContent : String := "@Service public class FooServiceImpl implements FooService"

/-- A filesystem whose one layer directory exists but faults on read. -/
def c8FaultyLayerFs : FS :=
  { dirs := [["m", "application"]], ioFaults := [["m", "application"]] }

/-- A filesystem whose base-package directory exists but faults on read. -/
def c8FaultyBaseFs : FS := { dirs := [["base"]], ioFaults := [["base"]] }

/-- A one-file filesystem holding `ImplFooImpl.java`. -/
def c9ImplFs : FS :=
  { files := [(["app", "ImplFooImpl.java"], "public class ImplFooImpl")], dirs := [["app"]] }

/-- The empty filesystem. -/
def fsEmpty : FS := {}

/-- A filesystem holding one entity file whose text mentions UUID. -/
def c1Fs : FS := { files := [(entityFilePath psFix "m" "User", "class User with UUID id")] }

/-- A filesystem holding an entity, its repository and its service. -/
def c3Fs : FS :=
  { files := [(entityFilePath psFix "m" "User", "class User with UUID id"),
              (repositoryFilePath psFix "m" "User", "interface UserRepository"),
              (serviceFilePath psFix "m" "User", "interface UserService")] }

/-- A filesystem holding a service file but no entity file. -/
def c10Fs : FS := { files := [(serviceFilePath psFix "m" "User", "interface UserService")] }

/-! ## Template data records (as built inline by the generators) -/

/-- The data record `generateEntity` passes to the templating collaborator. -/
def entityData (ps : ProjectStructure) (moduleName name idType : String) : TemplateData :=
  [("basePackage", .s ps.basePackage), ("module", .s moduleName), ("name", .s name),
   ("idType", .s (if idType = "UUID" then "UUID" else "Long")),
   ("idGenerationType", .s (if idType = "UUID" then "UUID" else "IDENTITY")),
   ("isUUID", .b (idType = "UUID"))]

/-- The data record `generateRepository` and `generateEntityBasedController`
pass to the templating collaborator. -/
def repoData (ps : ProjectStructure) (moduleName entityName : String) (isUUID : Bool) :
    TemplateData :=
  [("basePackage", .s ps.basePackage), ("module", .s moduleName),
   ("entityName", .s entityName), ("idType", .s (if isUUID then "UUID" else "Long")),
   ("isUUID", .b isUUID)]

/-- The data record `generateEntityBasedService` passes to the templating
collaborator. -/
def serviceData (ps : ProjectStructure) (moduleName entityName : String)
    (isUUID useTransactional : Bool) : TemplateData :=
  [("basePackage", .s ps.basePackage), ("module", .s moduleName),
   ("entityName", .s entityName), ("idType", .s (if isUUID then "UUID" else "Long")),
   ("isUUID", .b isUUID), ("useTransactional", .b useTransactional)]

/-- The data record `generateStandaloneService` passes to the templating
collaborator. -/
def standaloneServiceData (ps : ProjectStructure) (moduleName baseName : String)
    (useTransactional : Bool) : TemplateData :=
  [("basePackage", .s ps.basePackage), ("module", .s moduleName),
   ("serviceName", .s baseName), ("useTransactional", .b useTransactional)]

/-- The default scaffold configuration shipped by `ConfigManager.getDefaultConfig`. -/
def cfgFix : Config :=
  { moduleLayers :=
      [("application", { enabled := true, folders := ["mappers", "services"] }),
       ("domain", { enabled := true, folders := ["entities", "enums"] }),
       ("infrastructure", { enabled := true, folders := ["controllers", "repositories", "dtos"] })],
    entityDefaultIdType := none,
    serviceUseTransactional := none }

/-! ## Association-list lemmas -/

theorem alistFind_replace_self {κ α : Type} [DecidableEq κ] (l : List (κ × α)) (k : κ) (v : α) :
    alistFind (alistReplace l k v) k = some v := by
  induction l with
  | nil => simp [alistReplace, alistFind]
  | cons hd tl ih =>
      obtain ⟨k0, v0⟩ := hd
      by_cases h : k0 = k
      · subst h; simp [alistReplace, alistFind]
      · simp [alistReplace, alistFind, h, ih]

theorem alistFind_replace_ne {κ α : Type} [DecidableEq κ] (l : List (κ × α)) (k k' : κ) (v : α)
    (h : k' ≠ k) : alistFind (alistReplace l k v) k' = alistFind l k' := by
  have hkk : ¬(k = k') := fun hh => h (Eq.symm hh)
  induction l with
  | nil => simp [alistReplace, alistFind, hkk]
  | cons hd tl ih =>
      obtain ⟨k0, v0⟩ := hd
      by_cases hk : k0 = k
      · subst hk; simp [alistReplace, alistFind, hkk]
      · by_cases hk' : k0 = k'
        · subst hk'; simp [alistReplace, alistFind, hk]
        · simp [alistReplace, alistFind, hk, hk', ih]

theorem alistFind_append_left {κ α : Type} [DecidableEq κ] (l l2 : List (κ × α)) (k : κ) (v : α)
    (h : alistFind l k = some v) : alistFind (l ++ l2) k = some v := by
  induction l with
  | nil => simp [alistFind] at h
  | cons hd tl ih =>
      obtain ⟨k0, v0⟩ := hd
      by_cases hk : k0 = k
      · subst hk; simp [alistFind] at h ⊢; exact h
      · simp [alistFind, hk] at h ⊢; exact ih h

theorem alistFind_modify_self {κ α : Type} [DecidableEq κ] (f : α → α) (l : List (κ × α))
    (k : κ) (v : α) (h : alistFind l k = some v) :
    alistFind (alistModify f l k) k = some (f v) := by
  induction l with
  | nil => simp [alistFind] at h
  | cons hd tl ih =>
      obtain ⟨k0, v0⟩ := hd
      by_cases hk : k0 = k
      · subst hk
        simp [alistFind] at h
        simp [alistModify, alistFind, h]
      · simp [alistFind, hk] at h
        simp [alistModify, alistFind, hk, ih h]

theorem alistFind_modify_ne {κ α : Type} [DecidableEq κ] (f : α → α) (l : List (κ × α))
    (k k' : κ) (h : k' ≠ k) : alistFind (alistModify f l k) k' = alistFind l k' := by
  induction l with
  | nil => simp [alistModify, alistFind]
  | cons hd tl ih =>
      obtain ⟨k0, v0⟩ := hd
      by_cases hk : k0 = k
      · subst hk
        have hne : ¬(k0 = k') := fun hh => h (Eq.symm hh)
        simp [alistModify, alistFind, hne]
      · by_cases hk' : k0 = k'
        · subst hk'; simp [alistModify, alistFind, hk]
        · simp [alistModify, alistFind, hk, hk', ih]

/-! ## Filesystem lemmas -/

theorem mkdirOne_files (fs : FS) (q : FsPath) : (fs.mkdirOne q).files = fs.files := by
  unfold FS.mkdirOne; split <;> rfl

theorem mkdirOne_ioFaults (fs : FS) (q : FsPath) : (fs.mkdirOne q).ioFaults = fs.ioFaults := by
  unfold FS.mkdirOne; split <;> rfl

theorem mkdirOne_fileTrace (fs : FS) (q : FsPath) : (fs.mkdirOne q).fileTrace = fs.fileTrace := by
  unfold FS.mkdirOne; split <;> rfl

theorem mkdirOne_dirTrace (fs : FS) (q : FsPath) : (fs.mkdirOne q).dirTrace = fs.dirTrace := by
  unfold FS.mkdirOne; split <;> rfl

theorem foldl_mkdirOne_files (l : List FsPath) :
    ∀ fs : FS, (l.foldl FS.mkdirOne fs).files = fs.files := by
  induction l with
  | nil => intro fs; rfl
  | cons hd tl ih => intro fs; rw [List.foldl_cons, ih, mkdirOne_files]

theorem foldl_mkdirOne_ioFaults (l : List FsPath) :
    ∀ fs : FS, (l.foldl FS.mkdirOne fs).ioFaults = fs.ioFaults := by
  induction l with
  | nil => intro fs; rfl
  | cons hd tl ih => intro fs; rw [List.foldl_cons, ih, mkdirOne_ioFaults]

theorem foldl_mkdirOne_fileTrace (l : List FsPath) :
    ∀ fs : FS, (l.foldl FS.mkdirOne fs).fileTrace = fs.fileTrace := by
  induction l with
  | nil => intro fs; rfl
  | cons hd tl ih => intro fs; rw [List.foldl_cons, ih, mkdirOne_fileTrace]

theorem foldl_mkdirOne_dirTrace (l : List FsPath) :
    ∀ fs : FS, (l.foldl FS.mkdirOne fs).dirTrace = fs.dirTrace := by
  induction l with
  | nil => intro fs; rfl
  | cons hd tl ih => intro fs; rw [List.foldl_cons, ih, mkdirOne_dirTrace]

theorem ensureDir_files (fs : FS) (p : FsPath) : (fs.ensureDir p).files = fs.files := by
  unfold FS.ensureDir; exact foldl_mkdirOne_files _ _

theorem ensureDir_ioFaults (fs : FS) (p : FsPath) : (fs.ensureDir p).ioFaults = fs.ioFaults := by
  unfold FS.ensureDir; exact foldl_mkdirOne_ioFaults _ _

theorem ensureDir_fileTrace (fs : FS) (p : FsPath) : (fs.ensureDir p).fileTrace = fs.fileTrace := by
  unfold FS.ensureDir; exact foldl_mkdirOne_fileTrace _ _

theorem ensureDir_dirTrace (fs : FS) (p : FsPath) :
    (fs.ensureDir p).dirTrace = fs.dirTrace ++ [p] := by
  unfold FS.ensureDir
  exact congrArg (fun t => t ++ [p]) (foldl_mkdirOne_dirTrace (pathPrefixes p) fs)

theorem writeFile_dirs (fs : FS) (p : FsPath) (c : String) :
    (fs.writeFile p c).dirs = fs.dirs := rfl

theorem writeFile_ioFaults (fs : FS) (p : FsPath) (c : String) :
    (fs.writeFile p c).ioFaults = fs.ioFaults := rfl

theorem writeFile_dirTrace (fs : FS) (p : FsPath) (c : String) :
    (fs.writeFile p c).dirTrace = fs.dirTrace := rfl

theorem writeFile_fileTrace (fs : FS) (p : FsPath) (c : String) :
    (fs.writeFile p c).fileTrace = fs.fileTrace ++ [p] := rfl

theorem readFileE_ensureDir (fs : FS) (p q : FsPath) :
    (fs.ensureDir q).readFileE p = fs.readFileE p := by
  unfold FS.readFileE
  rw [ensureDir_ioFaults, ensureDir_files]

theorem readFileE_writeFile_self (fs : FS) (p : FsPath) (c : String)
    (h : fs.ioFaults.contains p = false) : (fs.writeFile p c).readFileE p = .ok c := by
  have h' : p ∉ fs.ioFaults := by simpa using h
  simp [FS.readFileE, FS.writeFile, h', alistFind_replace_self]

theorem readFileE_writeFile_ne (fs : FS) (p q : FsPath) (c : String) (h : p ≠ q) :
    (fs.writeFile q c).readFileE p = fs.readFileE p := by
  unfold FS.readFileE FS.writeFile
  simp [alistFind_replace_ne _ _ _ _ h]

theorem pathExists_writeFile_self (fs : FS) (p : FsPath) (c : String) :
    (fs.writeFile p c).pathExists p = true := by
  unfold FS.pathExists FS.fileExists FS.writeFile
  simp [alistFind_replace_self]

theorem fileExists_writeFile_mono (fs : FS) (p q : FsPath) (c : String)
    (h : fs.fileExists p = true) : (fs.writeFile q c).fileExists p = true := by
  unfold FS.fileExists at h
  unfold FS.fileExists FS.writeFile
  by_cases hq : p = q
  · subst hq; simp [alistFind_replace_self]
  · simpa [alistFind_replace_ne _ _ _ _ hq] using h

theorem pathExists_writeFile_mono (fs : FS) (p q : FsPath) (c : String)
    (h : fs.pathExists p = true) : (fs.writeFile q c).pathExists p = true := by
  unfold FS.pathExists at h ⊢
  rw [writeFile_dirs]
  rcases Bool.or_eq_true_iff.mp h with h1 | h1
  · exact Bool.or_eq_true_iff.mpr (Or.inl (fileExists_writeFile_mono _ _ _ _ h1))
  · exact Bool.or_eq_true_iff.mpr (Or.inr h1)

theorem mkdirOne_contains_mono (fs : FS) (q r : FsPath) (h : fs.dirs.contains r = true) :
    (fs.mkdirOne q).dirs.contains r = true := by
  unfold FS.mkdirOne
  split
  · exact h
  · rw [List.elem_iff] at h ⊢
    exact List.mem_append.mpr (Or.inl h)

theorem foldl_mkdirOne_contains_mono (l : List FsPath) :
    ∀ (fs : FS) (r : FsPath), fs.dirs.contains r = true →
      (l.foldl FS.mkdirOne fs).dirs.contains r = true := by
  induction l with
  | nil => intro fs r h; exact h
  | cons hd tl ih => intro fs r h; exact ih _ _ (mkdirOne_contains_mono _ _ _ h)

theorem ensureDir_contains_mono (fs : FS) (p r : FsPath) (h : fs.dirs.contains r = true) :
    (fs.ensureDir p).dirs.contains r = true := by
  unfold FS.ensureDir
  exact foldl_mkdirOne_contains_mono _ _ _ h

theorem fileExists_ensureDir (fs : FS) (p q : FsPath) :
    (fs.ensureDir q).fileExists p = fs.fileExists p := by
  unfold FS.fileExists; rw [ensureDir_files]

theorem pathExists_ensureDir_mono (fs : FS) (p q : FsPath) (h : fs.pathExists p = true) :
    (fs.ensureDir q).pathExists p = true := by
  unfold FS.pathExists at h ⊢
  rw [fileExists_ensureDir]
  rcases Bool.or_eq_true_iff.mp h with h1 | h1
  · exact Bool.or_eq_true_iff.mpr (Or.inl h1)
  · exact Bool.or_eq_true_iff.mpr (Or.inr (ensureDir_contains_mono _ _ _ h1))

theorem pathExists_of_readFileE_ok (fs : FS) (p : FsPath) (c : String)
    (h : fs.readFileE p = .ok c) : fs.pathExists p = true := by
  unfold FS.readFileE at h
  by_cases hf : fs.ioFaults.contains p = true
  · rw [if_pos hf] at h; exact absurd h (by simp)
  · rw [if_neg hf] at h
    cases hfind : alistFind fs.files p with
    | none => rw [hfind] at h; exact absurd h (by simp)
    | some v =>
        unfold FS.pathExists FS.fileExists
        simp [hfind]

theorem ioFaults_contains_false_of_nil (fs : FS) (p : FsPath) (h : fs.ioFaults = []) :
    fs.ioFaults.contains p = false := by
  rw [h]; rfl

/-- Two paths with the same prefix but different next segments differ. -/
theorem path_append_ne (base : FsPath) (a b : String) (as bs : List String) (h : a ≠ b) :
    base ++ (a :: as) ≠ base ++ (b :: bs) := by
  intro hh
  exact h (List.head_eq_of_cons_eq (List.append_cancel_left hh))

/-! ## Generator unfolding lemmas -/

theorem generateEntity_spec (ps : ProjectStructure) (tmpl : TemplateFn) (cfg : Config) (fs : FS)
    (name moduleName : String) (options : GenOptions) :
    ResourceGenerator.generateEntity ps tmpl cfg fs name moduleName options =
      ((fs.ensureDir (pathDirname (entityFilePath ps moduleName (pascalCase name)))).writeFile
          (entityFilePath ps moduleName (pascalCase name))
          (tmpl "entity" (entityData ps moduleName name
            (jsOrDefault (options.idType.map jsToUpper)
              (jsOrDefault cfg.entityDefaultIdType "UUID")))),
       .ok { createdFiles := [entityFilePath ps moduleName (pascalCase name)],
             calls := [("entity", entityData ps moduleName name
               (jsOrDefault (options.idType.map jsToUpper)
                 (jsOrDefault cfg.entityDefaultIdType "UUID")))] }) := rfl

theorem generateRepository_ok (ps : ProjectStructure) (tmpl : TemplateFn) (fs : FS)
    (name moduleName c : String)
    (h : fs.readFileE (entityFilePath ps moduleName (jsReplaceFirst name "Repository")) = .ok c) :
    ResourceGenerator.generateRepository ps tmpl fs name moduleName =
      ((fs.ensureDir (pathDirname (repositoryFilePath ps moduleName
            (jsReplaceFirst name "Repository")))).writeFile
          (repositoryFilePath ps moduleName (jsReplaceFirst name "Repository"))
          (tmpl "repository" (repoData ps moduleName (jsReplaceFirst name "Repository")
            (jsIncludes c "UUID"))),
       .ok { createdFiles := [repositoryFilePath ps moduleName (jsReplaceFirst name "Repository")],
             calls := [("repository", repoData ps moduleName (jsReplaceFirst name "Repository")
               (jsIncludes c "UUID"))] }) := by
  have hpe := pathExists_of_readFileE_ok _ _ _ h
  simp [ResourceGenerator.generateRepository, hpe, h, repoData]

theorem generateEntityBasedService_ok (ps : ProjectStructure) (tmpl : TemplateFn) (cfg : Config)
    (fs : FS) (name moduleName c : String)
    (hpeR : fs.pathExists (repositoryFilePath ps moduleName (jsReplaceFirst name "Service")) = true)
    (h : fs.readFileE (entityFilePath ps moduleName (jsReplaceFirst name "Service")) = .ok c) :
    ResourceGenerator.generateEntityBasedService ps tmpl cfg fs name moduleName =
      ((((fs.ensureDir (pathDirname (serviceFilePath ps moduleName
              (jsReplaceFirst name "Service")))).writeFile
            (serviceFilePath ps moduleName (jsReplaceFirst name "Service"))
            (tmpl "service" (serviceData ps moduleName (jsReplaceFirst name "Service")
              (jsIncludes c "UUID") (cfg.serviceUseTransactional.getD true)))).ensureDir
          (pathDirname (serviceImplFilePath ps moduleName (jsReplaceFirst name "Service")))).writeFile
        (serviceImplFilePath ps moduleName (jsReplaceFirst name "Service"))
        (tmpl "service-impl" (serviceData ps moduleName (jsReplaceFirst name "Service")
          (jsIncludes c "UUID") (cfg.serviceUseTransactional.getD true))),
       .ok { createdFiles := [serviceFilePath ps moduleName (jsReplaceFirst name "Service"),
               serviceImplFilePath ps moduleName (jsReplaceFirst name "Service")],
             calls := [("service", serviceData ps moduleName (jsReplaceFirst name "Service")
                 (jsIncludes c "UUID") (cfg.serviceUseTransactional.getD true)),
               ("service-impl", serviceData ps moduleName (jsReplaceFirst name "Service")
                 (jsIncludes c "UUID") (cfg.serviceUseTransactional.getD true))] }) := by
  have hpeE := pathExists_of_readFileE_ok _ _ _ h
  simp [ResourceGenerator.generateEntityBasedService, hpeE, hpeR, h, serviceData]

theorem generateEntityBasedController_ok (ps : ProjectStructure) (tmpl : TemplateFn) (fs : FS)
    (entityName moduleName c : String)
    (hpeS : fs.pathExists (serviceFilePath ps moduleName entityName) = true)
    (h : fs.readFileE (entityFilePath ps moduleName entityName) = .ok c) :
    ResourceGenerator.generateEntityBasedController ps tmpl fs entityName moduleName =
      ((fs.ensureDir (pathDirname (controllerFilePath ps moduleName entityName))).writeFile
          (controllerFilePath ps moduleName entityName)
          (tmpl "controller" (repoData ps moduleName entityName (jsIncludes c "UUID"))),
       .ok { createdFiles := [controllerFilePath ps moduleName entityName],
             calls := [("controller", repoData ps moduleName entityName (jsIncludes c "UUID"))] }) := by
  simp [ResourceGenerator.generateEntityBasedController, hpeS, h, repoData]

theorem generateStandaloneService_spec (ps : ProjectStructure) (tmpl : TemplateFn) (cfg : Config)
    (fs : FS) (serviceName moduleName : String) :
    ResourceGenerator.generateStandaloneService ps tmpl cfg fs serviceName moduleName =
      ((((fs.ensureDir (pathDirname (serviceFilePath ps moduleName
              (jsReplaceFirst serviceName "Service")))).writeFile
            (serviceFilePath ps moduleName (jsReplaceFirst serviceName "Service"))
            (tmpl "standalone-service" (standaloneServiceData ps moduleName
              (jsReplaceFirst serviceName "Service")
              (cfg.serviceUseTransactional.getD true)))).ensureDir
          (pathDirname (serviceImplFilePath ps moduleName
            (jsReplaceFirst serviceName "Service")))).writeFile
        (serviceImplFilePath ps moduleName (jsReplaceFirst serviceName "Service"))
        (tmpl "standalone-service-impl" (standaloneServiceData ps moduleName
          (jsReplaceFirst serviceName "Service") (cfg.serviceUseTransactional.getD true))),
       .ok { createdFiles := [serviceFilePath ps moduleName (jsReplaceFirst serviceName "Service"),
               serviceImplFilePath ps moduleName (jsReplaceFirst serviceName "Service")],
             calls := [("standalone-service", standaloneServiceData ps moduleName
                 (jsReplaceFirst serviceName "Service") (cfg.serviceUseTransactional.getD true)),
               ("standalone-service-impl", standaloneServiceData ps moduleName
                 (jsReplaceFirst serviceName "Service")
                 (cfg.serviceUseTransactional.getD true))] }) := rfl

/-! ## Claim C5 -/

/-- C5: `determineResourceType` applies its checks in a fixed priority order —
the enum declaration keyword wins over everything; then the entity or table
marker; then the service marker; then the controller markers; then the
repository marker; then the DTO filename suffixes; then the mapper marker;
then the interface-based fallback (repository, then service, then a Mapper
filename); else unknown.  In particular content containing both the entity
and the service markers is classified entity, and content containing the enum
keyword is classified enum regardless of any other marker. -/
theorem c5_classification_priority :
    (∀ c n, jsIncludes c "public enum" = true → determineResourceType c n = "enum") ∧
    (∀ c n, jsIncludes c "public enum" = false →
      (jsIncludes c "@Entity" = true ∨ jsIncludes c "@Table" = true) →
      determineResourceType c n = "entity") ∧
    (∀ c n, jsIncludes c "public enum" = false → jsIncludes c "@Entity" = false →
      jsIncludes c "@Table" = false → jsIncludes c "@Service" = true →
      determineResourceType c n = "service") ∧
    (∀ c n, jsIncludes c "public enum" = false → jsIncludes c "@Entity" = false →
      jsIncludes c "@Table" = false → jsIncludes c "@Service" = false →
      (jsIncludes c "@Controller" = true ∨ jsIncludes c "@RestController" = true) →
      determineResourceType c n = "controller") ∧
    (∀ c n, jsIncludes c "public enum" = false → jsIncludes c "@Entity" = false →
      jsIncludes c "@Table" = false → jsIncludes c "@Service" = false →
      jsIncludes c "@Controller" = false → jsIncludes c "@RestController" = false →
      jsIncludes c "@Repository" = true → determineResourceType c n = "repository") ∧
    (∀ c n, jsIncludes c "public enum" = false → jsIncludes c "@Entity" = false →
      jsIncludes c "@Table" = false → jsIncludes c "@Service" = false →
      jsIncludes c "@Controller" = false → jsIncludes c "@RestController" = false →
      jsIncludes c "@Repository" = false →
      (jsEndsWith n "DTO" = true ∨ jsEndsWith n "Dto" = true) →
      determineResourceType c n = "dto") ∧
    (∀ c n, jsIncludes c "public enum" = false → jsIncludes c "@Entity" = false →
      jsIncludes c "@Table" = false → jsIncludes c "@Service" = false →
      jsIncludes c "@Controller" = false → jsIncludes c "@RestController" = false →
      jsIncludes c "@Repository" = false → jsEndsWith n "DTO" = false →
      jsEndsWith n "Dto" = false → (determineMapperType c).isSome = true →
      determineResourceType c n = "mapper") ∧
    (∀ c n, jsIncludes c "public enum" = false → jsIncludes c "@Entity" = false →
      jsIncludes c "@Table" = false → jsIncludes c "@Service" = false →
      jsIncludes c "@Controller" = false → jsIncludes c "@RestController" = false →
      jsIncludes c "@Repository" = false → jsEndsWith n "DTO" = false →
      jsEndsWith n "Dto" = false → determineMapperType c = none →
      jsIncludes c "interface" = true →
      ((jsIncludes c "Repository" = true → determineResourceType c n = "repository") ∧
       (jsIncludes c "Repository" = false → jsIncludes c "Service" = true →
         determineResourceType c n = "service") ∧
       (jsIncludes c "Repository" = false → jsIncludes c "Service" = false →
         jsIncludes n "Mapper" = true → determineResourceType c n = "mapper") ∧
       (jsIncludes c "Repository" = false → jsIncludes c "Service" = false →
         jsIncludes n "Mapper" = false → determineResourceType c n = "unknown"))) ∧
    (∀ c n, jsIncludes c "public enum" = false → jsIncludes c "@Entity" = false →
      jsIncludes c "@Table" = false → jsIncludes c "@Service" = false →
      jsIncludes c "@Controller" = false → jsIncludes c "@RestController" = false →
      jsIncludes c "@Repository" = false → jsEndsWith n "DTO" = false →
      jsEndsWith n "Dto" = false → determineMapperType c = none →
      jsIncludes c "interface" = false → determineResourceType c n = "unknown") ∧
    (∀ c n, jsIncludes c "public enum" = false → jsIncludes c "@Entity" = true →
      jsIncludes c "@Service" = true → determineResourceType c n = "entity") := by
  refine ⟨?_, ?_, ?_, ?_, ?_, ?_, ?_, ?_, ?_, ?_⟩
  · intro c n h
    simp [determineResourceType, h]
  · rintro c n h0 (h1 | h1) <;> simp [determineResourceType, h0, h1]
  · intro c n h0 h1 h2 h3
    simp [determineResourceType, h0, h1, h2, h3]
  · rintro c n h0 h1 h2 h3 (h4 | h4) <;> simp [determineResourceType, h0, h1, h2, h3, h4]
  · intro c n h0 h1 h2 h3 h4 h5 h6
    simp [determineResourceType, h0, h1, h2, h3, h4, h5, h6]
  · rintro c n h0 h1 h2 h3 h4 h5 h6 (h7 | h7) <;>
      simp [determineResourceType, h0, h1, h2, h3, h4, h5, h6, h7]
  · intro c n h0 h1 h2 h3 h4 h5 h6 h7 h8 h9
    simp [determineResourceType, h0, h1, h2, h3, h4, h5, h6, h7, h8, h9]
  · intro c n h0 h1 h2 h3 h4 h5 h6 h7 h8 h9 h10
    refine ⟨?_, ?_, ?_, ?_⟩ <;> intros <;>
      simp [determineResourceType, h0, h1, h2, h3, h4, h5, h6, h7, h8, h9, h10, *]
  · intro c n h0 h1 h2 h3 h4 h5 h6 h7 h8 h9 h10
    simp [determineResourceType, h0, h1, h2, h3, h4, h5, h6, h7, h8, h9, h10]
  · intro c n h0 h1 h2
    simp [determineResourceType, h0, h1, h2]

/-- C5 witness: the two examples of the claim, evaluated on concrete
contents. -/
theorem c5_classification_priority_witness :
    determineResourceType "public enum Color RED GREEN @Entity @Service" "Color" = "enum" ∧
    determineResourceType "@Entity @Service public class A" "A" = "entity" :=
  ⟨c5_classification_priority.1 _ _ (by decide),
   c5_classification_priority.2.2.2.2.2.2.2.2.2 _ _ (by decide) (by decide) (by decide)⟩

/-! ## First-occurrence characterization of the suffix stripping -/

theorem isPrefixOf_append_self (l b : List Char) : l.isPrefixOf (l ++ b) = true := by
  induction l with
  | nil => simp [List.isPrefixOf]
  | cons c cs ih => simp [List.isPrefixOf, ih]

theorem replaceFirstChars_first_occurrence (pat b : List Char) (hpat : pat ≠ []) :
    ∀ a : List Char,
      (∀ i, i < a.length → pat.isPrefixOf ((a ++ pat ++ b).drop i) = false) →
      replaceFirstChars pat (a ++ pat ++ b) = a ++ b := by
  intro a
  induction a with
  | nil =>
      intro _
      obtain ⟨p, ps, rfl⟩ : ∃ p ps, pat = p :: ps := by
        cases pat with
        | nil => exact absurd rfl hpat
        | cons p ps => exact ⟨p, ps, rfl⟩
      show (if (p :: ps).isPrefixOf (p :: (ps ++ b)) then (p :: (ps ++ b)).drop (p :: ps).length
            else p :: replaceFirstChars (p :: ps) (ps ++ b)) = [] ++ b
      rw [show p :: (ps ++ b) = (p :: ps) ++ b from rfl, isPrefixOf_append_self]
      simp [List.drop_left]
  | cons c a' ih =>
      intro h
      have h0 : pat.isPrefixOf (c :: (a' ++ pat ++ b)) = false := by
        have h' := h 0 (by simp)
        simpa using h'
      show (if pat.isPrefixOf (c :: (a' ++ pat ++ b)) then (c :: (a' ++ pat ++ b)).drop pat.length
            else c :: replaceFirstChars pat (a' ++ pat ++ b)) = (c :: a') ++ b
      rw [h0]
      have hshift : ∀ i, i < a'.length → pat.isPrefixOf ((a' ++ pat ++ b).drop i) = false := by
        intro i hi
        have h' := h (i + 1) (by simpa using Nat.succ_lt_succ hi)
        simpa using h'
      simpa using congrArg (c :: ·) (ih hshift)

/-! ## Claim C9 -/

/-- C9: suffix stripping removes the first occurrence of the suffix substring
rather than a trailing one: whenever the earliest occurrence of the suffix is
at the start of a name, the derived name is the name with that first
occurrence removed — `analyzeJavaFile` derives interface name `FooImpl` from
`ImplFooImpl.java`, the entity-based service generator derives entity name
`OrderService` (not `ServiceOrder`) from `ServiceOrderService`, the
repository generator derives `FooRepository` from `RepositoryFooRepository`,
and the standalone controller generator derives base name `XController` from
`ControllerXController`. -/
theorem c9_suffix_strip_first_occurrence :
    (∀ (a b pat : List Char), pat ≠ [] →
      (∀ i, i < a.length → pat.isPrefixOf ((a ++ pat ++ b).drop i) = false) →
      jsReplaceFirst (String.mk (a ++ pat ++ b)) (String.mk pat) = String.mk (a ++ b)) ∧
    (∃ info, analyzeJavaFile c9ImplFs ["app", "ImplFooImpl.java"] = some info ∧
      info.name = "ImplFooImpl" ∧ info.interfaceName = some "FooImpl") ∧
    (ResourceGenerator.generateEntityBasedService psFix tmplFix {} fsEmpty
        "ServiceOrderService" "m" =
      (fsEmpty, .error "Entity OrderService not found in module m. Create the entity first.")) ∧
    (ResourceGenerator.generateRepository psFix tmplFix fsEmpty "RepositoryFooRepository" "m" =
      (fsEmpty, .error "Entity FooRepository not found in module m. Create the entity first.")) ∧
    ((ResourceGenerator.generateStandaloneController psFix tmplFix fsEmpty
        "ControllerXController" "m").2 =
      .ok { createdFiles := [["srcmain", "com", "example", "m", "infrastructure", "controllers",
              "XControllerController.java"]],
            calls := [("standalone-controller",
              [("basePackage", .s "com.example"), ("module", .s "m"),
               ("controllerName", .s "XController")])] }) := by
  refine ⟨?_, ⟨_, rfl, rfl, rfl⟩, rfl, rfl, rfl⟩
  intro a b pat hpat h
  exact congrArg String.mk (replaceFirstChars_first_occurrence pat b hpat a h)

/-- C9 witness: the general first-occurrence statement applied to the name
`XImplImpl`, whose earliest `Impl` occurrence is not the trailing one. -/
theorem c9_suffix_strip_first_occurrence_witness :
    jsReplaceFirst (String.mk ("X".data ++ "Impl".data ++ "Impl".data))
      (String.mk "Impl".data) = String.mk ("X".data ++ "Impl".data) := by
  refine c9_suffix_strip_first_occurrence.1 "X".data "Impl".data "Impl".data (by decide) ?_
  intro i hi
  have hz : i = 0 := Nat.lt_one_iff.mp (by simpa using hi)
  subst hz
  decide

/-! ## Claim C1 -/

/-- C1: for a repository generation request, when the entity file for the
derived logical name is absent, `generateRepository` throws the
missing-prerequisite error naming the entity and the module and leaves the
filesystem untouched; when it is present (and readable), the operation
succeeds and writes exactly one file, the repository file at its conventional
path. -/
theorem c1_repository_prerequisite :
    (∀ (ps : ProjectStructure) (tmpl : TemplateFn) (fs : FS) (name moduleName : String),
      fs.pathExists (entityFilePath ps moduleName (jsReplaceFirst name "Repository")) = false →
      ResourceGenerator.generateRepository ps tmpl fs name moduleName =
        (fs, .error ("Entity " ++ jsReplaceFirst name "Repository" ++ " not found in module " ++
          moduleName ++ ". Create the entity first."))) ∧
    (∀ (ps : ProjectStructure) (tmpl : TemplateFn) (fs : FS) (name moduleName c : String),
      fs.readFileE (entityFilePath ps moduleName (jsReplaceFirst name "Repository")) = .ok c →
      ∃ fs1, ResourceGenerator.generateRepository ps tmpl fs name moduleName =
          (fs1, .ok { createdFiles :=
                        [repositoryFilePath ps moduleName (jsReplaceFirst name "Repository")],
                      calls := [("repository", repoData ps moduleName
                        (jsReplaceFirst name "Repository") (jsIncludes c "UUID"))] }) ∧
        fs1.fileTrace = fs.fileTrace ++
          [repositoryFilePath ps moduleName (jsReplaceFirst name "Repository")]) := by
  constructor
  · intro ps tmpl fs name moduleName h
    simp [ResourceGenerator.generateRepository, h]
  · intro ps tmpl fs name moduleName c h
    refine ⟨_, generateRepository_ok ps tmpl fs name moduleName c h, ?_⟩
    rw [writeFile_fileTrace, ensureDir_fileTrace]

/-- C1 witness: the missing-entity branch on the empty filesystem and the
success branch on a filesystem holding the entity file. -/
theorem c1_repository_prerequisite_witness :
    (ResourceGenerator.generateRepository psFix tmplFix fsEmpty "User" "m" =
      (fsEmpty, .error "Entity User not found in module m. Create the entity first.")) ∧
    (∃ fs1, ResourceGenerator.generateRepository psFix tmplFix c1Fs "User" "m" =
        (fs1, .ok { createdFiles := [repositoryFilePath psFix "m" "User"],
                    calls := [("repository", repoData psFix "m" "User" true)] }) ∧
      fs1.fileTrace = c1Fs.fileTrace ++ [repositoryFilePath psFix "m" "User"]) :=
  ⟨c1_repository_prerequisite.1 psFix tmplFix fsEmpty "User" "m" (by decide),
   c1_repository_prerequisite.2 psFix tmplFix c1Fs "User" "m" "class User with UUID id" rfl⟩

/-! ## Claim C3 -/

/-- C3: for entity-based repository, service and controller generation whose
prerequisite files exist, every data record passed to the templating
collaborator carries `idType = "UUID"` and `isUUID = true` exactly when the
entity file content contains the substring `UUID`, and `idType = "Long"` and
`isUUID = false` otherwise. -/
theorem c3_id_type_inference :
    (∀ (ps : ProjectStructure) (tmpl : TemplateFn) (fs : FS) (name moduleName c : String),
      fs.readFileE (entityFilePath ps moduleName (jsReplaceFirst name "Repository")) = .ok c →
      ∃ fs1 out, ResourceGenerator.generateRepository ps tmpl fs name moduleName = (fs1, .ok out) ∧
        out.calls.map (·.1) = ["repository"] ∧
        ∀ d ∈ out.calls.map (·.2),
          alistFind d "idType" = some (.s (if jsIncludes c "UUID" then "UUID" else "Long")) ∧
          alistFind d "isUUID" = some (.b (jsIncludes c "UUID"))) ∧
    (∀ (ps : ProjectStructure) (tmpl : TemplateFn) (cfg : Config) (fs : FS)
        (name moduleName c : String),
      fs.pathExists (repositoryFilePath ps moduleName (jsReplaceFirst name "Service")) = true →
      fs.readFileE (entityFilePath ps moduleName (jsReplaceFirst name "Service")) = .ok c →
      ∃ fs1 out, ResourceGenerator.generateEntityBasedService ps tmpl cfg fs name moduleName =
          (fs1, .ok out) ∧
        out.calls.map (·.1) = ["service", "service-impl"] ∧
        ∀ d ∈ out.calls.map (·.2),
          alistFind d "idType" = some (.s (if jsIncludes c "UUID" then "UUID" else "Long")) ∧
          alistFind d "isUUID" = some (.b (jsIncludes c "UUID"))) ∧
    (∀ (ps : ProjectStructure) (tmpl : TemplateFn) (fs : FS) (entityName moduleName c : String),
      fs.pathExists (serviceFilePath ps moduleName entityName) = true →
      fs.readFileE (entityFilePath ps moduleName entityName) = .ok c →
      ∃ fs1 out, ResourceGenerator.generateEntityBasedController ps tmpl fs entityName moduleName =
          (fs1, .ok out) ∧
        out.calls.map (·.1) = ["controller"] ∧
        ∀ d ∈ out.calls.map (·.2),
          alistFind d "idType" = some (.s (if jsIncludes c "UUID" then "UUID" else "Long")) ∧
          alistFind d "isUUID" = some (.b (jsIncludes c "UUID"))) := by
  refine ⟨?_, ?_, ?_⟩
  · intro ps tmpl fs name moduleName c h
    refine ⟨_, _, generateRepository_ok ps tmpl fs name moduleName c h, rfl, ?_⟩
    intro d hd
    simp only [List.map_cons, List.map_nil, List.mem_singleton] at hd
    subst hd
    exact ⟨rfl, rfl⟩
  · intro ps tmpl cfg fs name moduleName c hpeR h
    refine ⟨_, _, generateEntityBasedService_ok ps tmpl cfg fs name moduleName c hpeR h, rfl, ?_⟩
    intro d hd
    simp only [List.map_cons, List.map_nil, List.mem_cons, List.mem_singleton,
      List.not_mem_nil, or_false] at hd
    rcases hd with hd | hd <;> subst hd <;> exact ⟨rfl, rfl⟩
  · intro ps tmpl fs entityName moduleName c hpeS h
    refine ⟨_, _, generateEntityBasedController_ok ps tmpl fs entityName moduleName c hpeS h,
      rfl, ?_⟩
    intro d hd
    simp only [List.map_cons, List.map_nil, List.mem_singleton] at hd
    subst hd
    exact ⟨rfl, rfl⟩

/-- C3 witness: the three generators applied against a concrete UUID entity. -/
theorem c3_id_type_inference_witness :
    (∃ fs1 out, ResourceGenerator.generateRepository psFix tmplFix c3Fs "User" "m" =
        (fs1, .ok out) ∧ out.calls.map (·.1) = ["repository"] ∧
      ∀ d ∈ out.calls.map (·.2),
        alistFind d "idType" = some (.s "UUID") ∧ alistFind d "isUUID" = some (.b true)) ∧
    (∃ fs1 out, ResourceGenerator.generateEntityBasedService psFix tmplFix {} c3Fs
        "UserService" "m" = (fs1, .ok out) ∧
      out.calls.map (·.1) = ["service", "service-impl"] ∧
      ∀ d ∈ out.calls.map (·.2),
        alistFind d "idType" = some (.s "UUID") ∧ alistFind d "isUUID" = some (.b true)) ∧
    (∃ fs1 out, ResourceGenerator.generateEntityBasedController psFix tmplFix c3Fs "User" "m" =
        (fs1, .ok out) ∧ out.calls.map (·.1) = ["controller"] ∧
      ∀ d ∈ out.calls.map (·.2),
        alistFind d "idType" = some (.s "UUID") ∧ alistFind d "isUUID" = some (.b true)) :=
  ⟨c3_id_type_inference.1 psFix tmplFix c3Fs "User" "m" "class User with UUID id" rfl,
   c3_id_type_inference.2.1 psFix tmplFix {} c3Fs "UserService" "m" "class User with UUID id"
     (by decide) rfl,
   c3_id_type_inference.2.2 psFix tmplFix c3Fs "User" "m" "class User with UUID id"
     (by decide) rfl⟩

/-! ## Claim C10 -/

theorem enoentMsg_ne_entityMsg (p : FsPath) (s : String) : enoentMsg p ≠ "Entity " ++ s := by
  intro h
  have h2 : (enoentMsg p).data[1]? = ("Entity " ++ s).data[1]? := by rw [h]
  rw [show (enoentMsg p).data =
        "ENOENT: no such file or directory, open ".data ++ (pathToString p).data from
      String.data_append _ _,
    String.data_append, List.getElem?_append_left (by decide),
    List.getElem?_append_left (by decide)] at h2
  exact absurd h2 (by decide)

/-- C10: entity-based controller generation checks only the service file; when
the service file exists but the entity file is missing, it fails on the
unguarded entity read with a file-not-found error (not with a
missing-prerequisite message, which always begins with the word Entity), and
the filesystem is untouched — no controller file is written; likewise the
missing-service branch writes nothing. -/
theorem c10_controller_unguarded_entity_read :
    (∀ (ps : ProjectStructure) (tmpl : TemplateFn) (fs : FS) (entityName moduleName : String),
      fs.pathExists (serviceFilePath ps moduleName entityName) = false →
      ResourceGenerator.generateEntityBasedController ps tmpl fs entityName moduleName =
        (fs, .error ("Service for " ++ entityName ++ " not found in module " ++ moduleName ++
          ". Create the service first."))) ∧
    (∀ (ps : ProjectStructure) (tmpl : TemplateFn) (fs : FS) (entityName moduleName : String),
      fs.pathExists (serviceFilePath ps moduleName entityName) = true →
      fs.fileExists (entityFilePath ps moduleName entityName) = false →
      fs.ioFaults.contains (entityFilePath ps moduleName entityName) = false →
      ResourceGenerator.generateEntityBasedController ps tmpl fs entityName moduleName =
        (fs, .error (enoentMsg (entityFilePath ps moduleName entityName))) ∧
      ∀ s, enoentMsg (entityFilePath ps moduleName entityName) ≠ "Entity " ++ s) := by
  constructor
  · intro ps tmpl fs entityName moduleName h
    simp [ResourceGenerator.generateEntityBasedController, h]
  · intro ps tmpl fs entityName moduleName hpeS hfe hio
    have hn : alistFind fs.files (entityFilePath ps moduleName entityName) = none := by
      unfold FS.fileExists at hfe
      exact Option.not_isSome_iff_eq_none.mp (by simp [hfe])
    have hread : fs.readFileE (entityFilePath ps moduleName entityName) =
        .error (enoentMsg (entityFilePath ps moduleName entityName)) := by
      unfold FS.readFileE
      rw [if_neg (by simp only [List.elem_iff] at hio ⊢; simpa using hio), hn]
    refine ⟨?_, fun s => enoentMsg_ne_entityMsg _ s⟩
    simp [ResourceGenerator.generateEntityBasedController, hpeS, hread]

/-- C10 witness: a concrete filesystem holding `UserService.java` but no
`User.java`. -/
theorem c10_controller_unguarded_entity_read_witness :
    ResourceGenerator.generateEntityBasedController psFix tmplFix c10Fs "User" "m" =
      (c10Fs, .error (enoentMsg (entityFilePath psFix "m" "User"))) :=
  (c10_controller_unguarded_entity_read.2 psFix tmplFix c10Fs "User" "m"
    (by decide) (by decide) (by decide)).1

/-! ## Claim C7 -/

/-- C7 counterexample: the claim requires every standalone service request
name to end in `Service`, but a name provided on the command line is returned
by `getServiceName` without any validation, and `generateStandaloneService`
happily writes both files for the name `Foo`. -/
theorem c7_standalone_service_counterexample :
    getServiceNameProvided "Foo" = { name := "Foo", isEntityBased := false } ∧
    jsEndsWith "Foo" "Service" = false ∧
    (ResourceGenerator.generateStandaloneService psFix tmplFix {} fsEmpty "Foo" "m").2 =
      .ok { createdFiles := [serviceFilePath psFix "m" "Foo", serviceImplFilePath psFix "m" "Foo"],
            calls := [("standalone-service", standaloneServiceData psFix "m" "Foo" true),
                      ("standalone-service-impl", standaloneServiceData psFix "m" "Foo" true)] } :=
  ⟨rfl, by decide, rfl⟩

/-- C7 (amended): standalone service generation checks no prerequisite and
always writes exactly two files — the interface at
`application/services/<Base>Service.java` and the implementation at
`application/services/implementations/<Base>ServiceImpl.java`, `<Base>` being
the name with its first `Service` occurrence stripped — from two distinct
templates sharing one data record; the `Service`-suffix requirement is
enforced only by the interactive prompt validator, not for names provided on
the command line. -/
theorem c7_standalone_service_two_files :
    (∀ (ps : ProjectStructure) (tmpl : TemplateFn) (cfg : Config) (fs : FS)
        (serviceName moduleName : String),
      ∃ fs2 d, ResourceGenerator.generateStandaloneService ps tmpl cfg fs serviceName moduleName =
          (fs2, .ok { createdFiles :=
                        [serviceFilePath ps moduleName (jsReplaceFirst serviceName "Service"),
                         serviceImplFilePath ps moduleName (jsReplaceFirst serviceName "Service")],
                      calls := [("standalone-service", d), ("standalone-service-impl", d)] }) ∧
        fs2.fileTrace = fs.fileTrace ++
          [serviceFilePath ps moduleName (jsReplaceFirst serviceName "Service"),
           serviceImplFilePath ps moduleName (jsReplaceFirst serviceName "Service")]) ∧
    (∀ s, serviceNamePromptValidate s = true → jsEndsWith s "Service" = true) := by
  constructor
  · intro ps tmpl cfg fs serviceName moduleName
    refine ⟨_, standaloneServiceData ps moduleName (jsReplaceFirst serviceName "Service")
      (cfg.serviceUseTransactional.getD true),
      generateStandaloneService_spec ps tmpl cfg fs serviceName moduleName, ?_⟩
    rw [writeFile_fileTrace, ensureDir_fileTrace, writeFile_fileTrace, ensureDir_fileTrace]
    simp
  · intro s h
    simp only [serviceNamePromptValidate, Bool.and_eq_true] at h
    exact h.2

/-- C7 witness: the two-file conclusion at a concrete request and the
validator conclusion at a concrete prompt input. -/
theorem c7_standalone_service_two_files_witness :
    (∃ fs2 d, ResourceGenerator.generateStandaloneService psFix tmplFix {} fsEmpty
        "PaymentService" "m" =
        (fs2, .ok { createdFiles := [serviceFilePath psFix "m" "Payment",
                      serviceImplFilePath psFix "m" "Payment"],
                    calls := [("standalone-service", d), ("standalone-service-impl", d)] }) ∧
      fs2.fileTrace = fsEmpty.fileTrace ++
        [serviceFilePath psFix "m" "Payment", serviceImplFilePath psFix "m" "Payment"]) ∧
    jsEndsWith "PaymentService" "Service" = true :=
  ⟨c7_standalone_service_two_files.1 psFix tmplFix {} fsEmpty "PaymentService" "m",
   c7_standalone_service_two_files.2 "PaymentService" (by decide)⟩

/-! ## Claim C8 -/

/-- C8 counterexample: a filesystem error while reading a layer directory is
silently turned into a null layer by `ModuleScanner.scanLayer`, into an empty
resource list by `ResourceScanner.scan`, and into an empty module list by
`ProjectScanner.findModules` — each indistinguishable from an absent or empty
directory for the caller. -/
theorem c8_error_reporting_counterexample :
    ModuleScanner.scanLayer c8FaultyLayerFs ["m", "application"] = none ∧
    ResourceScanner.scan c8FaultyLayerFs ["m", "application"] = [] ∧
    ProjectScanner.findModules c8FaultyBaseFs ["base"] = [] := ⟨rfl, rfl, rfl⟩

/-- C8 (amended): every filesystem error raised while scanning is caught at
the scanner layer and degraded — `ResourceScanner.scan` returns an empty
resource list, `ModuleScanner.scanLayer` returns a null layer and
`ProjectScanner.findModules` returns an empty module list (each after logging
to the console); the error is not propagated to the caller. -/
theorem c8_scan_errors_degrade :
    (∀ (fs : FS) (dir : FsPath), fs.ioFaults.contains dir = true →
      ResourceScanner.scan fs dir = []) ∧
    (∀ (fs : FS) (p : FsPath), fs.pathExists p = true → fs.ioFaults.contains p = true →
      ModuleScanner.scanLayer fs p = none) ∧
    (∀ (fs : FS) (p : FsPath), fs.ioFaults.contains p = true →
      ProjectScanner.findModules fs p = []) := by
  refine ⟨?_, ?_, ?_⟩
  · intro fs dir h
    have h' : dir ∈ fs.ioFaults := by simpa using h
    simp [ResourceScanner.scan, FS.getAllFilesE, FS.getAllFilesF, FS.readdirE, h',
      Bind.bind, Except.bind]
  · intro fs p h1 h2
    have h' : p ∈ fs.ioFaults := by simpa using h2
    simp [ModuleScanner.scanLayer, FS.readdirE, h1, h']
  · intro fs p h
    have h' : p ∈ fs.ioFaults := by simpa using h
    simp [ProjectScanner.findModules, FS.readdirE, h']

/-- C8 witness: the three degradations at concrete faulted filesystems. -/
theorem c8_scan_errors_degrade_witness :
    ResourceScanner.scan c8FaultyLayerFs ["m", "application"] = [] ∧
    ModuleScanner.scanLayer c8FaultyBaseFs ["base"] = none ∧
    ProjectScanner.findModules c8FaultyLayerFs ["m", "application"] = [] := by
  refine ⟨?_, ?_, ?_⟩
  · exact c8_scan_errors_degrade.1 c8FaultyLayerFs ["m", "application"] (by decide)
  · exact c8_scan_errors_degrade.2.1 c8FaultyBaseFs ["base"] (by decide) (by decide)
  · exact c8_scan_errors_degrade.2.2 c8FaultyLayerFs ["m", "application"] (by decide)

/-! ## Claim C2 -/

/-- C2 counterexample: scanning a layer holding `FooService.java` (an
interface) and `FooServiceImpl.java` yields exactly one merged record, but its
name is `FooService` — the logical key is the implementation name with `Impl`
stripped, not the name with the `Service` suffix also stripped — so the record
claimed to be named `Foo` does not exist. -/
theorem c2_interface_impl_merge_counterexample :
    ResourceScanner.scan (c2FsOf c2InterfaceContent c2ImplContent) ["app"] =
      [{ name := "FooService", type := "service", path := ["app", "FooService.java"],
         implementation := some "FooServiceImpl", mapperType := none }] ∧
    ("FooService" : String) ≠ "Foo" := ⟨rfl, by decide⟩

/-- C2 (amended): scanning a layer containing exactly `FooService.java` and
`FooServiceImpl.java`, when both contents classify as service (the interface
via the interface fallback, the implementation e.g. via its `@Service`
marker), yields in either traversal order exactly one `ResourceRecord` — named
`FooService`, of type service, with `implementation = FooServiceImpl`; and in
general a merge step for an implementation file never overwrites an already
recorded resource's type or name. -/
theorem c2_interface_impl_merge :
    (∀ cI cImpl : String,
      determineResourceType cI "FooService" = "service" →
      determineResourceType cImpl "FooServiceImpl" = "service" →
      (∃ r, ResourceScanner.scan (c2FsOf cI cImpl) ["app"] = [r] ∧ r.name = "FooService" ∧
        r.type = "service" ∧ r.implementation = some "FooServiceImpl") ∧
      (∃ r, ResourceScanner.scan (c2FsSwapOf cI cImpl) ["app"] = [r] ∧ r.name = "FooService" ∧
        r.type = "service" ∧ r.implementation = some "FooServiceImpl")) ∧
    (∀ (m : List (String × ResourceRecord)) (r : JavaFileInfo) (k : String) (v : ResourceRecord),
      alistFind m k = some v →
      ∃ w, alistFind (scanStep m r) k = some w ∧ w.type = v.type ∧ w.name = v.name) := by
  constructor
  · intro cI cImpl hI hImpl
    constructor
    · exact ⟨{ name := "FooService", type := determineResourceType cI "FooService",
               path := ["app", "FooService.java"], implementation := some "FooServiceImpl",
               mapperType := determineMapperType cI }, rfl, rfl, hI, rfl⟩
    · exact ⟨{ name := "FooService", type := determineResourceType cImpl "FooServiceImpl",
               path := ["app", "FooServiceImpl.java"], implementation := some "FooServiceImpl",
               mapperType := determineMapperType cImpl }, rfl, rfl, hImpl, rfl⟩
  · intro m r k v h
    rcases hfind : alistFind m (resourceKey r) with _ | w0
    · have e : scanStep m r = m ++ [(resourceKey r,
          { name := resourceKey r, type := r.type, path := r.path,
            implementation := if r.isImplementation then some r.name else none,
            mapperType := r.mapperType })] := by
        simp [scanStep, hfind]
      rw [e]
      exact ⟨v, alistFind_append_left _ _ _ _ h, rfl, rfl⟩
    · by_cases himpl : r.isImplementation = true
      · have e : scanStep m r =
            alistModify (fun rec0 => { rec0 with implementation := some r.name })
              m (resourceKey r) := by
          simp [scanStep, hfind, himpl]
        rw [e]
        by_cases hk : k = resourceKey r
        · subst hk
          exact ⟨_, alistFind_modify_self _ _ _ _ h, rfl, rfl⟩
        · rw [alistFind_modify_ne _ _ _ _ hk]
          exact ⟨v, h, rfl, rfl⟩
      · have e : scanStep m r = m := by
          simp [scanStep, hfind, himpl]
        rw [e]
        exact ⟨v, h, rfl, rfl⟩

/-- C2 witness: the merge conclusion at the concrete fixture contents, in both
traversal orders. -/
theorem c2_interface_impl_merge_witness :
    (∃ r, ResourceScanner.scan (c2FsOf c2InterfaceContent c2ImplContent) ["app"] = [r] ∧
      r.name = "FooService" ∧ r.type = "service" ∧ r.implementation = some "FooServiceImpl") ∧
    (∃ r, ResourceScanner.scan (c2FsSwapOf c2InterfaceContent c2ImplContent) ["app"] = [r] ∧
      r.name = "FooService" ∧ r.type = "service" ∧ r.implementation = some "FooServiceImpl") :=
  c2_interface_impl_merge.1 c2InterfaceContent c2ImplContent (by decide) (by decide)

/-! ## Scaffolding walk lemmas -/

theorem genFolders_spec (lp : FsPath) (l : List String) :
    ∀ (fs : FS) (acc : List FsPath),
      ModuleGenerator.genFolders lp l fs acc =
        (applyEnsure fs (l.flatMap (scaffoldFolderPaths lp)),
         acc ++ l.flatMap (scaffoldFolderPaths lp)) := by
  induction l with
  | nil => intro fs acc; simp [ModuleGenerator.genFolders, applyEnsure]
  | cons f rest ih =>
      intro fs acc
      by_cases hc : f = "services" ∨ f = "mappers"
      · simp [ModuleGenerator.genFolders, scaffoldFolderPaths, hc, ih, applyEnsure]
      · simp [ModuleGenerator.genFolders, scaffoldFolderPaths, hc, ih, applyEnsure]

theorem genLayers_spec (base : FsPath) (entries : List (String × LayerCfg)) :
    ∀ (fs : FS) (acc : List FsPath),
      ModuleGenerator.genLayers base entries fs acc =
        (applyEnsure fs (entries.flatMap (scaffoldLayerPaths base)),
         acc ++ entries.flatMap (scaffoldLayerPaths base)) := by
  induction entries with
  | nil => intro fs acc; simp [ModuleGenerator.genLayers, applyEnsure]
  | cons e rest ih =>
      intro fs acc
      obtain ⟨layerName, layerCfg⟩ := e
      by_cases hen : layerCfg.enabled = true
      · simp [ModuleGenerator.genLayers, scaffoldLayerPaths, hen, genFolders_spec, ih,
          applyEnsure]
      · simp [ModuleGenerator.genLayers, scaffoldLayerPaths, hen, ih, applyEnsure]

theorem moduleGenerate_spec (ps : ProjectStructure) (cfg : Config) (fs : FS)
    (moduleName : String) :
    ModuleGenerator.generate ps cfg fs moduleName =
      (applyEnsure fs (scaffoldTouchList ps cfg moduleName),
       { moduleName := moduleName, basePath := moduleBasePath ps moduleName,
         createdPaths := scaffoldTouchList ps cfg moduleName }) := by
  simp [ModuleGenerator.generate, genLayers_spec, scaffoldTouchList, applyEnsure]

/-! ## Idempotence lemmas for directory creation -/

theorem mkdirOne_contains_self (fs : FS) (q : FsPath) :
    (fs.mkdirOne q).dirs.contains q = true := by
  unfold FS.mkdirOne
  split
  · assumption
  · rw [List.elem_iff]
    exact List.mem_append.mpr (Or.inr (List.mem_singleton.mpr rfl))

theorem mkdirOne_eq_of_contains (fs : FS) (q : FsPath) (h : fs.dirs.contains q = true) :
    fs.mkdirOne q = fs := by
  unfold FS.mkdirOne
  rw [if_pos h]

theorem foldl_mkdirOne_contains_self (l : List FsPath) :
    ∀ (fs : FS) (q : FsPath), q ∈ l → (l.foldl FS.mkdirOne fs).dirs.contains q = true := by
  induction l with
  | nil => intro fs q h; exact absurd h (List.not_mem_nil q)
  | cons hd tl ih =>
      intro fs q h
      rcases List.mem_cons.mp h with h | h
      · subst h
        exact foldl_mkdirOne_contains_mono tl _ _ (mkdirOne_contains_self fs q)
      · exact ih _ _ h

theorem ensureDir_closed (fs : FS) (p : FsPath) : DirsClosed (fs.ensureDir p) p := by
  intro q hq
  unfold FS.ensureDir
  exact foldl_mkdirOne_contains_self _ _ _ hq

theorem dirsClosed_congr (fs1 fs2 : FS) (p : FsPath) (h : fs1.dirs = fs2.dirs)
    (hc : DirsClosed fs1 p) : DirsClosed fs2 p := by
  intro q hq
  rw [← h]
  exact hc q hq

theorem ensureDir_preserves_closed (fs : FS) (p r : FsPath) (h : DirsClosed fs p) :
    DirsClosed (fs.ensureDir r) p := by
  intro q hq
  exact ensureDir_contains_mono _ _ _ (h q hq)

theorem ensureDir_dirs_of_closed (fs : FS) (p : FsPath) (h : DirsClosed fs p) :
    (fs.ensureDir p).dirs = fs.dirs := by
  unfold FS.ensureDir
  show (List.foldl FS.mkdirOne fs (pathPrefixes p)).dirs = fs.dirs
  have : ∀ (l : List FsPath) (fs' : FS), (∀ q ∈ l, fs'.dirs.contains q = true) →
      (l.foldl FS.mkdirOne fs').dirs = fs'.dirs := by
    intro l
    induction l with
    | nil => intro fs' _; rfl
    | cons hd tl ih =>
        intro fs' hall
        rw [List.foldl_cons, mkdirOne_eq_of_contains fs' hd (hall hd (List.mem_cons_self hd tl))]
        exact ih fs' (fun q hq => hall q (List.mem_cons_of_mem hd hq))
  exact this _ fs h

theorem applyEnsure_preserves_closed (l : List FsPath) :
    ∀ (fs : FS) (p : FsPath), DirsClosed fs p → DirsClosed (applyEnsure fs l) p := by
  induction l with
  | nil => intro fs p h; exact h
  | cons hd tl ih => intro fs p h; exact ih _ _ (ensureDir_preserves_closed fs p hd h)

theorem applyEnsure_closed_all (l : List FsPath) :
    ∀ (fs : FS) (p : FsPath), p ∈ l → DirsClosed (applyEnsure fs l) p := by
  induction l with
  | nil => intro fs p h; exact absurd h (List.not_mem_nil p)
  | cons hd tl ih =>
      intro fs p h
      rcases List.mem_cons.mp h with h | h
      · subst h
        exact applyEnsure_preserves_closed tl _ _ (ensureDir_closed fs p)
      · exact ih _ _ h

theorem applyEnsure_dirs_of_closed (l : List FsPath) :
    ∀ fs : FS, (∀ p ∈ l, DirsClosed fs p) → (applyEnsure fs l).dirs = fs.dirs := by
  induction l with
  | nil => intro fs _; rfl
  | cons hd tl ih =>
      intro fs hall
      have e1 : (fs.ensureDir hd).dirs = fs.dirs :=
        ensureDir_dirs_of_closed fs hd (hall hd (List.mem_cons_self hd tl))
      have : (applyEnsure (fs.ensureDir hd) tl).dirs = (fs.ensureDir hd).dirs :=
        ih (fs.ensureDir hd) (fun p hp =>
          dirsClosed_congr fs _ p e1.symm (hall p (List.mem_cons_of_mem hd hp)))
      rw [show applyEnsure fs (hd :: tl) = applyEnsure (fs.ensureDir hd) tl from rfl, this, e1]

theorem applyEnsure_dirTrace (l : List FsPath) :
    ∀ fs : FS, (applyEnsure fs l).dirTrace = fs.dirTrace ++ l := by
  induction l with
  | nil => intro fs; simp [applyEnsure]
  | cons hd tl ih =>
      intro fs
      rw [show applyEnsure fs (hd :: tl) = applyEnsure (fs.ensureDir hd) tl from rfl, ih,
        ensureDir_dirTrace]
      simp

/-! ## Claim C6 -/

/-- C6: for every valid lowercase-alphanumeric module name and every layer and
folder configuration, `ModuleGenerator.generate` is idempotent — a second
invocation (which can raise no error, the operation being total) leaves the
final directory set identical and returns the same created paths; every
configured folder named exactly `services` or `mappers` yields an additional
nested `implementations` directory among the returned paths; and the returned
paths are exactly the `ensureDir` calls in creation order. -/
theorem c6_module_scaffold_idempotent (ps : ProjectStructure) (cfg : Config) (fs : FS)
    (moduleName : String) (hvalid : moduleNamePattern moduleName = true) :
    ((ModuleGenerator.generate ps cfg
        (ModuleGenerator.generate ps cfg fs moduleName).1 moduleName).1.dirs =
      (ModuleGenerator.generate ps cfg fs moduleName).1.dirs) ∧
    ((ModuleGenerator.generate ps cfg
        (ModuleGenerator.generate ps cfg fs moduleName).1 moduleName).2.createdPaths =
      (ModuleGenerator.generate ps cfg fs moduleName).2.createdPaths) ∧
    (∀ layerName layerCfg, (layerName, layerCfg) ∈ cfg.moduleLayers → layerCfg.enabled = true →
      ∀ folder ∈ layerCfg.folders, (folder = "services" ∨ folder = "mappers") →
        (moduleBasePath ps moduleName ++ [layerName] ++ [folder] ++ ["implementations"]) ∈
          (ModuleGenerator.generate ps cfg fs moduleName).2.createdPaths) ∧
    ((ModuleGenerator.generate ps cfg fs moduleName).1.dirTrace =
      fs.dirTrace ++ (ModuleGenerator.generate ps cfg fs moduleName).2.createdPaths) := by
  rw [moduleGenerate_spec ps cfg fs moduleName]
  rw [moduleGenerate_spec ps cfg (applyEnsure fs (scaffoldTouchList ps cfg moduleName)) moduleName]
  refine ⟨?_, rfl, ?_, ?_⟩
  · exact applyEnsure_dirs_of_closed _ _
      (fun p hp => applyEnsure_closed_all _ fs p hp)
  · intro layerName layerCfg hmem hen folder hf hsm
    show _ ∈ scaffoldTouchList ps cfg moduleName
    unfold scaffoldTouchList
    refine List.mem_cons_of_mem _ (List.mem_flatMap.mpr ⟨(layerName, layerCfg), hmem, ?_⟩)
    unfold scaffoldLayerPaths
    rw [if_pos hen]
    refine List.mem_cons_of_mem _ (List.mem_flatMap.mpr ⟨folder, hf, ?_⟩)
    unfold scaffoldFolderPaths
    rw [if_pos hsm]
    simp
  · exact applyEnsure_dirTrace _ _

/-- C6 witness: idempotence of the directory set on the default
configuration for module `users`. -/
theorem c6_module_scaffold_idempotent_witness :
    (ModuleGenerator.generate psFix cfgFix
        (ModuleGenerator.generate psFix cfgFix fsEmpty "users").1 "users").1.dirs =
      (ModuleGenerator.generate psFix cfgFix fsEmpty "users").1.dirs :=
  (c6_module_scaffold_idempotent psFix cfgFix fsEmpty "users" (by decide)).1

/-! ## Claim C4 -/

/-- C4 (spec-modelled: the composite full mode is documented in the README
and the spec but absent from the provided sources; `generateFull` composes the
source-embedded generators in the spec's fixed order): for one logical name
with no space and no `Repository` or `Service` occurrence, composite
generation runs entity, repository, entity-based service, entity-based
controller in that order, creating the five files entity, repository, service
interface, service implementation and controller at their conventional paths,
in that order; and it short-circuits, propagating the first failure — on the
name `RepositoryOrder` the repository step fails and only the entity file has
been written. -/
theorem c4_full_generation :
    (∀ (ps : ProjectStructure) (tmpl : TemplateFn) (cfg : Config) (fs : FS)
        (name moduleName : String) (options : GenOptions),
      pascalCase name = name →
      jsReplaceFirst name "Repository" = name →
      jsReplaceFirst name "Service" = name →
      fs.ioFaults = [] →
      ∃ fs4 out, generateFull ps tmpl cfg fs name moduleName options = (fs4, .ok out) ∧
        out.createdFiles =
          [entityFilePath ps moduleName name,
           repositoryFilePath ps moduleName name,
           serviceFilePath ps moduleName name,
           serviceImplFilePath ps moduleName name,
           controllerFilePath ps moduleName name] ∧
        fs4.fileTrace = fs.fileTrace ++
          [entityFilePath ps moduleName name,
           repositoryFilePath ps moduleName name,
           serviceFilePath ps moduleName name,
           serviceImplFilePath ps moduleName name,
           controllerFilePath ps moduleName name]) ∧
    ((generateFull psFix tmplFix {} fsEmpty "RepositoryOrder" "sales" {}).2 =
        .error "Entity Order not found in module sales. Create the entity first." ∧
      (generateFull psFix tmplFix {} fsEmpty "RepositoryOrder" "sales" {}).1.fileTrace =
        [entityFilePath psFix "sales" "RepositoryOrder"]) := by
  constructor
  · intro ps tmpl cfg fs name moduleName options hpas hrep hser hio
    have hED : entityFilePath ps moduleName name ≠ repositoryFilePath ps moduleName name :=
      path_append_ne _ _ _ _ _ (by decide)
    have hES : entityFilePath ps moduleName name ≠ serviceFilePath ps moduleName name :=
      path_append_ne _ _ _ _ _ (by decide)
    have hESI : entityFilePath ps moduleName name ≠ serviceImplFilePath ps moduleName name :=
      path_append_ne _ _ _ _ _ (by decide)
    have h1 : ∃ fs1 o1, ResourceGenerator.generateEntity ps tmpl cfg fs name moduleName options =
          (fs1, .ok o1) ∧
        o1.createdFiles = [entityFilePath ps moduleName name] ∧
        fs1.ioFaults = [] ∧
        (∃ c, fs1.readFileE (entityFilePath ps moduleName name) = .ok c) ∧
        fs1.fileTrace = fs.fileTrace ++ [entityFilePath ps moduleName name] := by
      refine ⟨_, _, by rw [generateEntity_spec ps tmpl cfg fs name moduleName options, hpas],
        rfl, ?_, ?_, ?_⟩
      · rw [writeFile_ioFaults, ensureDir_ioFaults]; exact hio
      · exact ⟨_, readFileE_writeFile_self _ _ _
          (ioFaults_contains_false_of_nil _ _ (by rw [ensureDir_ioFaults]; exact hio))⟩
      · rw [writeFile_fileTrace, ensureDir_fileTrace]
    obtain ⟨fs1, o1, e1, hcf1, hio1, ⟨c1, hrd1⟩, htr1⟩ := h1
    have h2 : ∃ fs2 o2, ResourceGenerator.generateRepository ps tmpl fs1 name moduleName =
          (fs2, .ok o2) ∧
        o2.createdFiles = [repositoryFilePath ps moduleName name] ∧
        fs2.ioFaults = [] ∧
        (∃ c, fs2.readFileE (entityFilePath ps moduleName name) = .ok c) ∧
        fs2.fileTrace = fs1.fileTrace ++ [repositoryFilePath ps moduleName name] ∧
        fs2.pathExists (repositoryFilePath ps moduleName name) = true := by
      have hrd1R : fs1.readFileE
          (entityFilePath ps moduleName (jsReplaceFirst name "Repository")) = .ok c1 := by
        rw [hrep]; exact hrd1
      refine ⟨_, _, by rw [generateRepository_ok ps tmpl fs1 name moduleName c1 hrd1R, hrep],
        rfl, ?_, ⟨c1, ?_⟩, ?_, ?_⟩
      · rw [writeFile_ioFaults, ensureDir_ioFaults]; exact hio1
      · rw [readFileE_writeFile_ne _ _ _ _ hED, readFileE_ensureDir]; exact hrd1
      · rw [writeFile_fileTrace, ensureDir_fileTrace]
      · exact pathExists_writeFile_self _ _ _
    obtain ⟨fs2, o2, e2, hcf2, hio2, ⟨c2, hrd2⟩, htr2, hpe2⟩ := h2
    have h3 : ∃ fs3 o3,
        ResourceGenerator.generateEntityBasedService ps tmpl cfg fs2 name moduleName =
          (fs3, .ok o3) ∧
        o3.createdFiles = [serviceFilePath ps moduleName name,
          serviceImplFilePath ps moduleName name] ∧
        (∃ c, fs3.readFileE (entityFilePath ps moduleName name) = .ok c) ∧
        fs3.fileTrace = fs2.fileTrace ++
          [serviceFilePath ps moduleName name, serviceImplFilePath ps moduleName name] ∧
        fs3.pathExists (serviceFilePath ps moduleName name) = true := by
      have hpeR : fs2.pathExists
          (repositoryFilePath ps moduleName (jsReplaceFirst name "Service")) = true := by
        rw [hser]; exact hpe2
      have hrd2S : fs2.readFileE
          (entityFilePath ps moduleName (jsReplaceFirst name "Service")) = .ok c2 := by
        rw [hser]; exact hrd2
      refine ⟨_, _,
        by rw [generateEntityBasedService_ok ps tmpl cfg fs2 name moduleName c2 hpeR hrd2S, hser],
        rfl, ⟨c2, ?_⟩, ?_, ?_⟩
      · rw [readFileE_writeFile_ne _ _ _ _ hESI, readFileE_ensureDir,
          readFileE_writeFile_ne _ _ _ _ hES, readFileE_ensureDir]
        exact hrd2
      · rw [writeFile_fileTrace, ensureDir_fileTrace, writeFile_fileTrace, ensureDir_fileTrace]
        simp
      · exact pathExists_writeFile_mono _ _ _ _ (pathExists_ensureDir_mono _ _ _
          (pathExists_writeFile_self _ _ _))
    obtain ⟨fs3, o3, e3, hcf3, ⟨c3, hrd3⟩, htr3, hpe3⟩ := h3
    have h4 : ∃ fs4 o4,
        ResourceGenerator.generateEntityBasedController ps tmpl fs3 name moduleName =
          (fs4, .ok o4) ∧
        o4.createdFiles = [controllerFilePath ps moduleName name] ∧
        fs4.fileTrace = fs3.fileTrace ++ [controllerFilePath ps moduleName name] := by
      refine ⟨_, _, generateEntityBasedController_ok ps tmpl fs3 name moduleName c3 hpe3 hrd3,
        rfl, ?_⟩
      rw [writeFile_fileTrace, ensureDir_fileTrace]
    obtain ⟨fs4, o4, e4, hcf4, htr4⟩ := h4
    refine ⟨fs4,
      { createdFiles := o1.createdFiles ++ o2.createdFiles ++ o3.createdFiles ++ o4.createdFiles,
        calls := o1.calls ++ o2.calls ++ o3.calls ++ o4.calls }, ?_, ?_, ?_⟩
    · simp only [generateFull, e1, e2, e3, e4]
    · show (o1.createdFiles ++ o2.createdFiles ++ o3.createdFiles ++ o4.createdFiles) = _
      rw [hcf1, hcf2, hcf3, hcf4]
      simp
    · rw [htr4, htr3, htr2, htr1]
      simp
  · exact ⟨rfl, rfl⟩

/-- C4 witness: composite generation for entity `Order` in module `sales`
starting from the empty filesystem. -/
theorem c4_full_generation_witness :
    ∃ fs4 out, generateFull psFix tmplFix {} fsEmpty "Order" "sales" {} = (fs4, .ok out) ∧
      out.createdFiles =
        [entityFilePath psFix "sales" "Order",
         repositoryFilePath psFix "sales" "Order",
         serviceFilePath psFix "sales" "Order",
         serviceImplFilePath psFix "sales" "Order",
         controllerFilePath psFix "sales" "Order"] ∧
      fs4.fileTrace = fsEmpty.fileTrace ++
        [entityFilePath psFix "sales" "Order",
         repositoryFilePath psFix "sales" "Order",
         serviceFilePath psFix "sales" "Order",
         serviceImplFilePath psFix "sales" "Order",
         controllerFilePath psFix "sales" "Order"] :=
  c4_full_generation.1 psFix tmplFix {} fsEmpty "Order" "sales" {}
    (by decide) (by decide) (by decide) rfl
